import Mathlib

/-!
Verification of the CallofDuty.py client library.

This file gives a shallow embedding of `src/callofduty/enums.py` and
`src/callofduty/client.py`.  JSON values are modelled by an inductive type,
Python `dict` objects by association lists that keep insertion order, and each
asynchronous `Client` method by a function from an abstract transport record
`Http` to a result paired with the ordered trace of transport calls it issued.
Python exceptions (KeyError, TypeError, ValueError, AttributeError and the
library's InvalidArgument) are modelled by an error type.  Code between
transport calls raises no transport activity, so it is embedded in an
`Except`-valued fragment (`Exc`) and lifted into the traced monad `Res`.

The repository modules `utils.py` (the Verify validators), `player.py`,
`match.py`, `squad.py` and `leaderboard.py` are not part of the sources under
verification; the definitions for them below are modelled from the spec and
carry a doc comment saying so.
-/

namespace CoD

/-- JSON values as returned by the transport.  Numbers are modelled as
integers, which covers every numeric field the client touches. -/
inductive JSON where
  | null
  | bool (b : Bool)
  | num (n : Int)
  | str (s : String)
  | arr (elems : List JSON)
  | obj (fields : List (String × JSON))

/-- First value bound to a key in an association list, mirroring Python
dictionary lookup (keys of a Python dict are unique, so first = only). -/
def lookupField : List (String × JSON) → String → Option JSON
  | [], _ => none
  | p :: rest, k => if p.1 = k then some p.2 else lookupField rest k

/-- Pure lookup `j[k]` returning `none` when `j` is not an object or lacks
the key.  Used in theorem statements. -/
def JSON.get? : JSON → String → Option JSON
  | .obj fs, k => lookupField fs k
  | _, _ => none

/-- Python dictionary update `d[k] = v`: the key keeps its position when
present, otherwise the pair is appended (insertion order). -/
def updateField (fs : List (String × JSON)) (k : String) (v : JSON) :
    List (String × JSON) :=
  if fs.any (fun p => p.1 = k) then
    fs.map (fun p => if p.1 = k then (k, v) else p)
  else
    fs ++ [(k, v)]

/-- Python dict merge `\x7b**w, **a\x7d`: entries of `w` in order, each
overridden by `a` where `a` has the key, followed by the entries of `a`
whose keys are absent from `w`. -/
def dictMerge (w a : List (String × JSON)) : List (String × JSON) :=
  w.map (fun p => ((lookupField a p.1).elim p (fun v => (p.1, v)))) ++
    a.filter (fun p => (lookupField w p.1).isNone)

/-- Error conditions of the embedded Python code. -/
inductive Err where
  | invalidArgument
  | keyError (k : String)
  | typeError
  | valueError
  | attributeError
deriving DecidableEq

/-- Transport-free Python code: either a value or a raised error. -/
abbrev Exc (α : Type) := Except Err α

/-- One transport call, recording the endpoint and the wire arguments exactly
as the client passes them to `self.http`. -/
inductive Event where
  | closeSession
  | getWebLocalize (language : String)
  | getAppLocalize (language : String)
  | getNewsFeed (language : String)
  | getFriendFeed
  | getMyIdentities
  | getMyAccounts
  | getMyFriends
  | searchPlayer (platform username : String)
  | getPlayerProfile (platform username title mode : String)
  | getPlayerMatches (platform username title mode : String)
      (limit startTimestamp endTimestamp : Int)
  | getPlayerMatchesDetailed (platform username title mode : String)
      (limit startTimestamp endTimestamp : Int)
  | getMatch (title platform : String) (matchId : Int)
  | getLeaderboard (title platform gameType gameMode timeFrame : String)
      (page : Int)
  | getPlayerLeaderboard (title platform username gameType gameMode timeFrame : String)
  | getAvailableMaps (title platform mode : String)
  | getLootSeason (title : String) (season : Int) (platform language : String)
  | getSquad (name : String)
  | getPlayerSquad (platform username : String)
  | getMySquad
  | joinSquad (name : String)
  | leaveSquad
deriving DecidableEq

/-- Outcome of running an embedded client operation: the value or the raised
error, together with the ordered list of transport calls issued before the
operation finished or raised. -/
structure Res (α : Type) where
  result : Exc α
  trace : List Event

/-- Successful result with no transport activity. -/
def Res.pure {α : Type} (a : α) : Res α := ⟨.ok a, []⟩

/-- Raised error with no transport activity. -/
def Res.fail {α : Type} (e : Err) : Res α := ⟨.error e, []⟩

/-- Transport-free code lifted into the traced monad. -/
def liftE {α : Type} (r : Exc α) : Res α := ⟨r, []⟩

/-- Sequencing: the second computation runs only when the first succeeded;
traces concatenate in program order. -/
def Res.bind {α β : Type} (x : Res α) (f : α → Res β) : Res β :=
  match x.result with
  | .error e => ⟨.error e, x.trace⟩
  | .ok a => ⟨(f a).result, x.trace ++ (f a).trace⟩

instance : Monad Res where
  pure := Res.pure
  bind := Res.bind

/-- An awaited transport call: records the event and yields the transport's
response. -/
def Res.call (e : Event) (v : JSON) : Res JSON := ⟨.ok v, [e]⟩

/-- Python `for`-loop over a list that appends `f x` for each element, i.e.
effectful map returning the results in order (transport-free loops only). -/
def mapE {α β : Type} (f : α → Exc β) : List α → Exc (List β)
  | [] => .ok []
  | x :: xs => do
    let y ← f x
    let ys ← mapE f xs
    .ok (y :: ys)

/-- Python subscript `j[k]` with a string key: KeyError on a missing key,
TypeError when `j` is not a dict. -/
def JSON.idx (j : JSON) (k : String) : Exc JSON :=
  match j with
  | .obj fs =>
    match lookupField fs k with
    | some v => .ok v
    | none => .error (.keyError k)
  | _ => .error .typeError

/-- Python `j.get(k)`: `None` (here `JSON.null`) when the key is missing;
AttributeError when `j` is not a dict. -/
def JSON.getAttr (j : JSON) (k : String) : Exc JSON :=
  match j with
  | .obj fs => .ok ((lookupField fs k).getD .null)
  | _ => .error .attributeError

/-- Python `j.get(k, d)` with an explicit default. -/
def JSON.getAttrD (j : JSON) (k : String) (d : JSON) : Exc JSON :=
  match j with
  | .obj fs => .ok ((lookupField fs k).getD d)
  | _ => .error .attributeError

/-- Python dictionary item assignment `d[k] = v`: TypeError when `d` is not
a dict. -/
def JSON.setItem (j : JSON) (k : String) (v : JSON) : Exc JSON :=
  match j with
  | .obj fs => .ok (.obj (updateField fs k v))
  | _ => .error .typeError

/-- Python iteration `for x in j` over a list; a dict yields its keys.
Anything else is modelled as TypeError. -/
def pyList (j : JSON) : Exc (List JSON) :=
  match j with
  | .arr xs => .ok xs
  | .obj fs => .ok (fs.map (fun p => JSON.str p.1))
  | _ => .error .typeError

/-- Python iteration over the keys of a dict where every key is immediately
used to subscript the same dict, embedded as iteration over its (key, value)
pairs (dict keys are unique, so the two are the same).  An empty list runs
zero iterations; a non-empty non-dict value fails on the first subscript. -/
def iterKeyed (j : JSON) : Exc (List (String × JSON)) :=
  match j with
  | .obj fs => .ok fs
  | .arr [] => .ok []
  | _ => .error .typeError

/-- Python list slice `xs[:limit]` for a positive limit; TypeError when the
value is not a list. -/
def pySlice (j : JSON) (limit : Int) : Exc JSON :=
  match j with
  | .arr xs => .ok (.arr (xs.take limit.toNat))
  | _ => .error .typeError

/-- Value of a decimal digit character. -/
def digitVal (c : Char) : Option Nat :=
  if c = '0' then some 0 else if c = '1' then some 1
  else if c = '2' then some 2 else if c = '3' then some 3
  else if c = '4' then some 4 else if c = '5' then some 5
  else if c = '6' then some 6 else if c = '7' then some 7
  else if c = '8' then some 8 else if c = '9' then some 9 else none

/-- Accumulating decimal parse of a digit string. -/
def digitsValAux (acc : Nat) : List Char → Option Nat
  | [] => some acc
  | c :: rest =>
    match digitVal c with
    | some d => digitsValAux (acc * 10 + d) rest
    | none => none

/-- Parse of a non-empty decimal digit string. -/
def digitsVal : List Char → Option Nat
  | [] => none
  | cs => digitsValAux 0 cs

/-- Python `int(s)` on a string: optional sign followed by decimal digits.
(The whitespace and underscore tolerance of CPython is not needed by any
field the client parses.) -/
def pyIntOfChars : List Char → Option Int
  | '-' :: rest => (digitsVal rest).map (fun n => -(n : Int))
  | '+' :: rest => (digitsVal rest).map (fun n => (n : Int))
  | cs => (digitsVal cs).map (fun n => (n : Int))

/-- Python `int(x)` as used by the client: integers pass through, numeric
strings are parsed (ValueError on a malformed string), booleans coerce, and
other values raise TypeError. -/
def pyInt (j : JSON) : Exc Int :=
  match j with
  | .num n => .ok n
  | .str s =>
    match pyIntOfChars s.data with
    | some n => .ok n
    | none => .error .valueError
  | .bool b => .ok (if b then 1 else 0)
  | _ => .error .typeError

/-- Python dict merge expression `\x7b**web, **app\x7d`: TypeError unless
both operands are dicts. -/
def pyMerge (web app : JSON) : Exc JSON :=
  match web, app with
  | .obj w, .obj a => .ok (.obj (dictMerge w a))
  | _, _ => .error .typeError

/-! ## Enumerations (src/callofduty/enums.py) -/

/-- Platforms supported by the Call of Duty API. -/
inductive Platform where
  | Activision
  | PlayStation
  | Xbox
  | Steam
  | BattleNet
deriving DecidableEq

/-- Wire token of a `Platform` member. -/
def Platform.value : Platform → String
  | .Activision => "uno"
  | .PlayStation => "psn"
  | .Xbox => "xbl"
  | .Steam => "steam"
  | .BattleNet => "battle"

/-- Call of Duty titles supported by the API. -/
inductive Title where
  | ModernWarfare
  | BlackOps4
  | WWII
  | InfiniteWarfare
  | BlackOps3
deriving DecidableEq

/-- Wire token of a `Title` member. -/
def Title.value : Title → String
  | .ModernWarfare => "mw"
  | .BlackOps4 => "bo4"
  | .WWII => "wwii"
  | .InfiniteWarfare => "iw"
  | .BlackOps3 => "bo3"

/-- Game modes supported by the API. -/
inductive Mode where
  | Multiplayer
  | Zombies
  | Blackout
deriving DecidableEq

/-- Wire token of a `Mode` member. -/
def Mode.value : Mode → String
  | .Multiplayer => "mp"
  | .Zombies => "zm"
  | .Blackout => "wz"

/-- Localization languages supported by the API. -/
inductive Language where
  | English
  | French
  | German
  | Italian
  | Spanish
deriving DecidableEq

/-- Wire token of a `Language` member. -/
def Language.value : Language → String
  | .English => "en"
  | .French => "fr"
  | .German => "de"
  | .Italian => "it"
  | .Spanish => "es"

/-- Leaderboard time frames supported by the API. -/
inductive TimeFrame where
  | AllTime
  | Monthly
  | Weekly
deriving DecidableEq

/-- Wire token of a `TimeFrame` member. -/
def TimeFrame.value : TimeFrame → String
  | .AllTime => "alltime"
  | .Monthly => "monthly"
  | .Weekly => "weekly"

/-- Game types supported by the API. -/
inductive GameType where
  | Core
  | Hardcore
  | WorldLeague
deriving DecidableEq

/-- Wire token of a `GameType` member. -/
def GameType.value : GameType → String
  | .Core => "core"
  | .Hardcore => "hc"
  | .WorldLeague => "arena"

/-- Enum constructor `Title(token)`: the member with the given wire token,
if any. -/
def Title.ofValue : String → Option Title
  | "mw" => some .ModernWarfare
  | "bo4" => some .BlackOps4
  | "wwii" => some .WWII
  | "iw" => some .InfiniteWarfare
  | "bo3" => some .BlackOps3
  | _ => none

/-- Enum constructor `Platform(token)`: the member with the given wire token,
if any. -/
def Platform.ofValue : String → Option Platform
  | "uno" => some .Activision
  | "psn" => some .PlayStation
  | "xbl" => some .Xbox
  | "steam" => some .Steam
  | "battle" => some .BattleNet
  | _ => none

/-!
Python callers may pass any object where a `Client` method expects an
enumeration member; a valid member or a foreign value carrying some wire
token.  Each parameter position is therefore embedded as an argument type
with a `valid` constructor (a real member) and an `invalid` constructor (any
non-member, identified by the token its `.value` attribute would yield).
-/

/-- A value supplied where `Platform` is expected. -/
inductive PlatformArg where
  | valid (p : Platform)
  | invalid (token : String)

/-- `.value` attribute of a platform argument. -/
def PlatformArg.value : PlatformArg → String
  | .valid p => p.value
  | .invalid t => t

/-- A value supplied where `Title` is expected. -/
inductive TitleArg where
  | valid (t : Title)
  | invalid (token : String)

/-- `.value` attribute of a title argument. -/
def TitleArg.value : TitleArg → String
  | .valid t => t.value
  | .invalid t => t

/-- A value supplied where `Mode` is expected. -/
inductive ModeArg where
  | valid (m : Mode)
  | invalid (token : String)

/-- `.value` attribute of a mode argument. -/
def ModeArg.value : ModeArg → String
  | .valid m => m.value
  | .invalid t => t

/-- A value supplied where `Language` is expected. -/
inductive LanguageArg where
  | valid (l : Language)
  | invalid (token : String)

/-- `.value` attribute of a language argument. -/
def LanguageArg.value : LanguageArg → String
  | .valid l => l.value
  | .invalid t => t

/-- A value supplied where `TimeFrame` is expected. -/
inductive TimeFrameArg where
  | valid (t : TimeFrame)
  | invalid (token : String)

/-- `.value` attribute of a time-frame argument. -/
def TimeFrameArg.value : TimeFrameArg → String
  | .valid t => t.value
  | .invalid t => t

/-- A value supplied where `GameType` is expected. -/
inductive GameTypeArg where
  | valid (g : GameType)
  | invalid (token : String)

/-- `.value` attribute of a game-type argument. -/
def GameTypeArg.value : GameTypeArg → String
  | .valid g => g.value
  | .invalid t => t

/-- Modelled from the spec: `utils.py` is not among the sources under
verification.  Per the spec, `VerifyPlatform(value)` fails with
InvalidArgument when `value` is not a member of `Platform` and otherwise is
a no-op. -/
def VerifyPlatform : PlatformArg → Exc Unit
  | .valid _ => .ok ()
  | .invalid _ => .error .invalidArgument

/-- Modelled from the spec: `utils.py` is not among the sources under
verification.  `VerifyTitle` fails with InvalidArgument on non-members of
`Title` and otherwise is a no-op. -/
def VerifyTitle : TitleArg → Exc Unit
  | .valid _ => .ok ()
  | .invalid _ => .error .invalidArgument

/-- Modelled from the spec: `utils.py` is not among the sources under
verification.  `VerifyMode` fails with InvalidArgument on non-members of
`Mode` and otherwise is a no-op. -/
def VerifyMode : ModeArg → Exc Unit
  | .valid _ => .ok ()
  | .invalid _ => .error .invalidArgument

/-- Modelled from the spec: `utils.py` is not among the sources under
verification.  `VerifyLanguage` fails with InvalidArgument on non-members of
`Language` and otherwise is a no-op. -/
def VerifyLanguage : LanguageArg → Exc Unit
  | .valid _ => .ok ()
  | .invalid _ => .error .invalidArgument

/-- Modelled from the spec: `utils.py` is not among the sources under
verification.  `VerifyTimeFrame` fails with InvalidArgument on non-members
of `TimeFrame` and otherwise is a no-op. -/
def VerifyTimeFrame : TimeFrameArg → Exc Unit
  | .valid _ => .ok ()
  | .invalid _ => .error .invalidArgument

/-- Modelled from the spec: `utils.py` is not among the sources under
verification.  `VerifyGameType` fails with InvalidArgument on non-members of
`GameType` and otherwise is a no-op. -/
def VerifyGameType : GameTypeArg → Exc Unit
  | .valid _ => .ok ()
  | .invalid _ => .error .invalidArgument

/-! ## Domain entities -/

/-- Modelled from the spec: `player.py` is not among the sources under
verification.  A Player is an immutable snapshot entity built from the raw
associative payload the Client hands to its constructor; nested first-party
identity Players are represented inside the payload by their own payloads
under the key "identities". -/
structure Player where
  data : JSON

/-- Modelled from the spec: `match.py` is not among the sources under
verification.  A Match is an immutable snapshot entity built from the raw
associative payload the Client hands to its constructor (keys "id",
"platform", "title"). -/
structure Match where
  data : JSON

/-- Modelled from the spec: `squad.py` is not among the sources under
verification.  A Squad is an opaque JSON payload with an identity (its
"name" entry). -/
structure Squad where
  data : JSON

/-- Name of a Squad, from its payload. -/
def Squad.name (s : Squad) : Option JSON := s.data.get? "name"

/-- Modelled from the spec: `leaderboard.py` is not among the sources under
verification.  A Leaderboard holds ordered entries plus contextual metadata
taken from its payload. -/
structure Leaderboard where
  data : JSON

/-- Requested time frame stored in a Leaderboard payload. -/
def Leaderboard.timeFrame (l : Leaderboard) : Option JSON :=
  l.data.get? "timeFrame"

/-- Ordered entries of a Leaderboard payload (empty when absent). -/
def Leaderboard.entries (l : Leaderboard) : List JSON :=
  match l.data.get? "entries" with
  | some (.arr xs) => xs
  | _ => []

/-- One title identity returned by `Client.GetMyIdentities`. -/
structure TitleIdentity where
  title : Title
  platform : Platform
  username : JSON
  activeDate : JSON
  activityType : JSON

/-- Result shape of `Client.GetFriendFeed`. -/
structure FriendFeed where
  events : JSON
  players : List Player
  metadata : JSON

/-- Result shape of `Client.GetMyFriendRequests`. -/
structure FriendRequests where
  incoming : List Player
  outgoing : List Player

/-! ## The transport collaborator -/

/-- The duck-typed transport object `self.http`: one response-producing
operation per upstream endpoint used by the Client.  Transport failures are
out of scope (the spec places them in the external collaborator), so each
operation totally returns a parsed JSON body. -/
structure Http where
  CloseSession : JSON
  GetWebLocalize : String → JSON
  GetAppLocalize : String → JSON
  GetNewsFeed : String → JSON
  GetFriendFeed : JSON
  GetMyIdentities : JSON
  GetMyAccounts : JSON
  GetMyFriends : JSON
  SearchPlayer : String → String → JSON
  GetPlayerProfile : String → String → String → String → JSON
  GetPlayerMatches : String → String → String → String → Int → Int → Int → JSON
  GetPlayerMatchesDetailed : String → String → String → String → Int → Int → Int → JSON
  GetMatch : String → String → Int → JSON
  GetLeaderboard : String → String → String → String → String → Int → JSON
  GetPlayerLeaderboard : String → String → String → String → String → String → JSON
  GetAvailableMaps : String → String → String → JSON
  GetLootSeason : String → Int → String → String → JSON
  GetSquad : String → JSON
  GetPlayerSquad : String → String → JSON
  GetMySquad : JSON
  JoinSquad : String → JSON
  LeaveSquad : JSON

/-! ## Keyword-argument records -/

/-- Keyword arguments of `Client.SearchPlayers` (`limit`, default 0). -/
structure SearchKwargs where
  limit : Option Int

/-- Keyword arguments of `Client.GetPlayerMatches` and
`Client.GetPlayerMatchesSummary` (`limit` default 10, timestamps default 0). -/
structure MatchesKwargs where
  limit : Option Int
  startTimestamp : Option Int
  endTimestamp : Option Int

/-- Keyword arguments of `Client.GetLeaderboard` and
`Client.GetLeaderboardPlayers`. -/
structure LeaderboardKwargs where
  gameType : Option GameTypeArg
  gameMode : Option String
  timeFrame : Option TimeFrameArg
  page : Option Int

/-- Keyword arguments of `Client.GetPlayerLeaderboard` (no `page`). -/
structure PlayerLeaderboardKwargs where
  gameType : Option GameTypeArg
  gameMode : Option String
  timeFrame : Option TimeFrameArg

/-- Keyword arguments of `Client.GetLootSeason`. -/
structure LootSeasonKwargs where
  platform : Option PlatformArg
  language : Option LanguageArg

/-! ## Enum construction from wire tokens (used by GetMyIdentities) -/

/-- Python `Title(x)`: ValueError unless `x` is the wire token of a member. -/
def pyTitle (j : JSON) : Exc Title :=
  match j with
  | .str s =>
    match Title.ofValue s with
    | some t => .ok t
    | none => .error .valueError
  | _ => .error .valueError

/-- Python `Platform(x)`: ValueError unless `x` is the wire token of a
member. -/
def pyPlatform (j : JSON) : Exc Platform :=
  match j with
  | .str s =>
    match Platform.ofValue s with
    | some p => .ok p
    | none => .error .valueError
  | _ => .error .valueError

/-! ## The Client facade (src/callofduty/client.py)

Each method takes the transport `http` (the Python `self.http`) as its first
argument.  Optional Python parameters and `**kwargs` options are passed as
explicit `Option`-valued records; a `kwargs.get` default from the source
appears as the corresponding `Option.getD`.  Stretches of code between
transport awaits are grouped into `Exc`-valued functions and lifted with
`liftE`, preserving the source's statement order.
-/

namespace Client

/-- `Client.Logout` (client.py line 26): close the client session. -/
def Logout (http : Http) : Res Unit := do
  let _ ← Res.call .closeSession http.CloseSession
  Res.pure ()

/-- `Client.GetLocalize` (client.py line 31): fetch web and app localization
and merge them, app entries last. -/
def GetLocalize (http : Http) (language : LanguageArg) : Res JSON := do
  liftE (VerifyLanguage language)
  let web ← Res.call (.getWebLocalize language.value)
    (http.GetWebLocalize language.value)
  let app ← Res.call (.getAppLocalize language.value)
    (http.GetAppLocalize language.value)
  liftE (pyMerge web app)

/-- `Client.GetNewsFeed` (client.py line 54): fetch the franchise feed.
The source calls the transport directly, without `VerifyLanguage`. -/
def GetNewsFeed (http : Http) (language : LanguageArg) : Res JSON := do
  Res.call (.getNewsFeed language.value) (http.GetNewsFeed language.value)

/-- Post-response body of `GetFriendFeed` (client.py lines 82 to 96). -/
def friendFeedBody (resp : JSON) : Exc FriendFeed := do
  let data ← resp.idx "data"
  let ids ← data.idx "identities"
  let idList ← pyList ids
  let players ← mapE (fun i => do
    let pv ← i.idx "platform"
    let uv ← i.idx "username"
    .ok (Player.mk (.obj [("platform", pv), ("username", uv)]))) idList
  let ev ← data.idx "events"
  let md ← data.idx "metadata"
  .ok (FriendFeed.mk ev players md)

/-- `Client.GetFriendFeed` (client.py line 72). -/
def GetFriendFeed (http : Http) : Res FriendFeed := do
  let resp ← Res.call .getFriendFeed http.GetFriendFeed
  liftE (friendFeedBody resp)

/-- Post-response body of `GetMyIdentities` (client.py lines 108 to 123). -/
def identitiesBody (resp : JSON) : Exc (List TitleIdentity) := do
  let data ← resp.idx "data"
  let tis ← data.idx "titleIdentities"
  let tiList ← pyList tis
  mapE (fun identity => do
    let tv ← identity.idx "title"
    let t ← pyTitle tv
    let pv ← identity.idx "platform"
    let p ← pyPlatform pv
    let uv ← identity.idx "username"
    let ad ← identity.idx "activeDate"
    let aty ← identity.idx "activityType"
    .ok (TitleIdentity.mk t p uv ad aty)) tiList

/-- `Client.GetMyIdentities` (client.py line 98). -/
def GetMyIdentities (http : Http) : Res (List TitleIdentity) := do
  let resp ← Res.call .getMyIdentities http.GetMyIdentities
  liftE (identitiesBody resp)

/-- Post-response body of `GetMyAccounts` (client.py lines 135 to 146): one
Player per key of the `data` dict. -/
def accountsBody (resp : JSON) : Exc (List Player) := do
  let data ← resp.idx "data"
  let accounts ← iterKeyed data
  mapE (fun account => do
    let uv ← account.2.idx "username"
    .ok (Player.mk (.obj
      [("platform", .str account.1), ("username", uv)]))) accounts

/-- `Client.GetMyAccounts` (client.py line 125). -/
def GetMyAccounts (http : Http) : Res (List Player) := do
  let resp ← Res.call .getMyAccounts http.GetMyAccounts
  liftE (accountsBody resp)

/-- Loop body shared by the `uno` friend list of `GetMyFriends` and the two
invitation lists of `GetMyFriendRequests` (the source repeats the identical
dictionary literal in all three loops). -/
def parseBasicFriend (friend : JSON) : Exc Player := do
  let pv ← friend.idx "platform"
  let uv ← friend.idx "username"
  let acc ← friend.getAttr "accountId"
  let st ← friend.idx "status"
  let onl ← st.idx "online"
  .ok (Player.mk (.obj
    [("platform", pv), ("username", uv), ("accountId", acc), ("online", onl)]))

/-- Inner identities loop of `GetMyFriends` (client.py lines 180 to 195):
one nested Player per entry of a firstParty friend's `identities` dict. -/
def parseIdentity (entry : String × JSON) : Exc Player := do
  let pv ← entry.2.idx "platform"
  let uv ← entry.2.idx "username"
  let acc ← entry.2.idx "accountId"
  let av ← entry.2.getAttr "avatarUrlLargeSsl"
  .ok (Player.mk (.obj
    [("platform", pv), ("username", uv), ("accountId", acc), ("avatarUrl", av)]))

/-- Body of the firstParty loop of `GetMyFriends` (client.py lines 176 to
209): the identities are parsed first, then the parent Player is built with
them attached. -/
def parseFirstPartyFriend (friend : JSON) : Exc Player := do
  let idsRaw ← friend.getAttrD "identities" (.arr [])
  let pairs ← iterKeyed idsRaw
  let identities ← mapE parseIdentity pairs
  let pv ← friend.idx "platform"
  let uv ← friend.idx "username"
  let acc ← friend.getAttr "accountId"
  let av ← friend.getAttr "avatarUrlLargeSsl"
  let st ← friend.idx "status"
  let onl ← st.idx "online"
  .ok (Player.mk (.obj
    [("platform", pv), ("username", uv), ("accountId", acc), ("avatarUrl", av),
     ("online", onl), ("identities", .arr (identities.map Player.data))]))

/-- Post-response body of `GetMyFriends` (client.py lines 158 to 211): flat
`uno` friends first, then the per-platform `firstParty` friends with nested
identities. -/
def myFriendsBody (resp : JSON) : Exc (List Player) := do
  let data ← resp.idx "data"
  let uno ← data.idx "uno"
  let unoList ← pyList uno
  let unoFriends ← mapE parseBasicFriend unoList
  let fp ← data.idx "firstParty"
  let fpPairs ← iterKeyed fp
  let fpFriends ← mapE (fun pl => do
    let l ← pyList pl.2
    mapE parseFirstPartyFriend l) fpPairs
  .ok (unoFriends ++ fpFriends.flatten)

/-- `Client.GetMyFriends` (client.py line 148). -/
def GetMyFriends (http : Http) : Res (List Player) := do
  let resp ← Res.call .getMyFriends http.GetMyFriends
  liftE (myFriendsBody resp)

/-- Post-response body of `GetMyFriendRequests` (client.py lines 224 to
255). -/
def friendRequestsBody (resp : JSON) : Exc FriendRequests := do
  let data ← resp.idx "data"
  let inc ← data.idx "incomingInvitations"
  let incList ← pyList inc
  let incoming ← mapE parseBasicFriend incList
  let out ← data.idx "outgoingInvitations"
  let outList ← pyList out
  let outgoing ← mapE parseBasicFriend outList
  .ok (FriendRequests.mk incoming outgoing)

/-- `Client.GetMyFriendRequests` (client.py line 213). -/
def GetMyFriendRequests (http : Http) : Res FriendRequests := do
  let resp ← Res.call .getMyFriends http.GetMyFriends
  liftE (friendRequestsBody resp)

/-- `Client.GetPlayer` (client.py line 257): validates the platform and
constructs the Player locally, with no transport call. -/
def GetPlayer (http : Http) (platform : PlatformArg) (username : String) :
    Res Player := do
  liftE (VerifyPlatform platform)
  Res.pure (Player.mk (.obj
    [("platform", .str platform.value), ("username", .str username)]))

/-- The accountId conditional of `SearchPlayers` (client.py lines 308 to
311): a string value is parsed with `int`, anything else passes through. -/
def reshapeAccount (acc0 : JSON) : Exc JSON :=
  match acc0 with
  | .str s => Except.bind (pyInt (.str s)) (fun n => .ok (.num n))
  | v => .ok v

/-- The avatar conditional of `SearchPlayers` (client.py lines 313 to 315):
a dict value is replaced by its `avatarUrlLargeSsl` entry, anything else
passes through. -/
def reshapeAvatar (av0 : JSON) : Exc JSON :=
  match av0 with
  | .obj fs => JSON.idx (.obj fs) "avatarUrlLargeSsl"
  | v => .ok v

/-- Loop body of `Client.SearchPlayers` (client.py lines 307 to 324):
reshape one raw search entry into a Player payload. -/
def searchReshape (player : JSON) : Exc Player := do
  let acc0 ← player.getAttr "accountId"
  let accountId ← reshapeAccount acc0
  let av0 ← player.getAttr "avatar"
  let avatar ← reshapeAvatar av0
  let pv ← player.idx "platform"
  let uv ← player.idx "username"
  .ok (Player.mk (.obj
    [("platform", pv), ("username", uv), ("accountId", accountId),
     ("avatarUrl", avatar)]))

/-- Post-response body of `SearchPlayers` (client.py lines 299 to 326):
truncate to `limit` when positive, then reshape every remaining entry. -/
def searchBody (resp : JSON) (kwargs : SearchKwargs) : Exc (List Player) := do
  let data ← resp.idx "data"
  let limit := kwargs.limit.getD 0
  let data ← if limit > 0 then pySlice data limit else .ok data
  let entries ← pyList data
  mapE searchReshape entries

/-- `Client.SearchPlayers` (client.py line 278). -/
def SearchPlayers (http : Http) (platform : PlatformArg) (username : String)
    (kwargs : SearchKwargs) : Res (List Player) := do
  liftE (VerifyPlatform platform)
  let resp ← Res.call (.searchPlayer platform.value username)
    (http.SearchPlayer platform.value username)
  liftE (searchBody resp kwargs)

/-- `Client.GetPlayerProfile` (client.py line 328). -/
def GetPlayerProfile (http : Http) (platform : PlatformArg) (username : String)
    (title : TitleArg) (mode : ModeArg) : Res JSON := do
  liftE (VerifyPlatform platform)
  liftE (VerifyTitle title)
  liftE (VerifyMode mode)
  let resp ← Res.call
    (.getPlayerProfile platform.value username title.value mode.value)
    (http.GetPlayerProfile platform.value username title.value mode.value)
  liftE (resp.idx "data")

/-- `Client.GetMatch` (client.py line 362): validates title and platform and
constructs the Match locally, with no transport call. -/
def GetMatch (http : Http) (title : TitleArg) (platform : PlatformArg)
    (matchId : Int) : Res Match := do
  liftE (VerifyTitle title)
  liftE (VerifyPlatform platform)
  Res.pure (Match.mk (.obj
    [("id", .num matchId), ("platform", .str platform.value),
     ("title", .str title.value)]))

/-- Loop body of the Activision branch of `GetPlayerMatches` (client.py
lines 444 to 455): the match id comes from JSON key `matchID` and is parsed
to an integer. -/
def buildMatchDetailed (platform : PlatformArg) (title : TitleArg)
    (m : JSON) : Exc Match := do
  let v ← m.idx "matchID"
  let n ← pyInt v
  .ok (Match.mk (.obj
    [("id", .num n), ("platform", .str platform.value),
     ("title", .str title.value)]))

/-- Loop body of the non-Activision branch of `GetPlayerMatches` (client.py
lines 471 to 482): the match id comes from JSON key `matchId` and is parsed
to an integer. -/
def buildMatchStandard (platform : PlatformArg) (title : TitleArg)
    (m : JSON) : Exc Match := do
  let v ← m.idx "matchId"
  let n ← pyInt v
  .ok (Match.mk (.obj
    [("id", .num n), ("platform", .str platform.value),
     ("title", .str title.value)]))

/-- Post-response body of the Activision branch of `GetPlayerMatches`
(client.py lines 430 to 455). -/
def matchesBodyDetailed (platform : PlatformArg) (title : TitleArg)
    (resp : JSON) : Exc (List Match) := do
  let d ← resp.idx "data"
  let ms ← d.idx "matches"
  let entries ← pyList ms
  mapE (buildMatchDetailed platform title) entries

/-- Post-response body of the non-Activision branch of `GetPlayerMatches`
(client.py lines 457 to 482). -/
def matchesBodyStandard (platform : PlatformArg) (title : TitleArg)
    (resp : JSON) : Exc (List Match) := do
  let d ← resp.idx "data"
  let entries ← pyList d
  mapE (buildMatchStandard platform title) entries

/-- `Client.GetPlayerMatches` (client.py line 388): the Activision platform
uses the detailed endpoint and key `matchID`; every other platform uses the
standard endpoint and key `matchId`. -/
def GetPlayerMatches (http : Http) (platform : PlatformArg) (username : String)
    (title : TitleArg) (mode : ModeArg) (kwargs : MatchesKwargs) :
    Res (List Match) := do
  liftE (VerifyPlatform platform)
  liftE (VerifyTitle title)
  liftE (VerifyMode mode)
  let limit := kwargs.limit.getD 10
  let startTimestamp := kwargs.startTimestamp.getD 0
  let endTimestamp := kwargs.endTimestamp.getD 0
  match platform with
  | .valid .Activision => do
    let resp ← Res.call
      (.getPlayerMatchesDetailed platform.value username title.value mode.value
        limit startTimestamp endTimestamp)
      (http.GetPlayerMatchesDetailed platform.value username title.value
        mode.value limit startTimestamp endTimestamp)
    liftE (matchesBodyDetailed platform title resp)
  | _ => do
    let resp ← Res.call
      (.getPlayerMatches platform.value username title.value mode.value
        limit startTimestamp endTimestamp)
      (http.GetPlayerMatches platform.value username title.value mode.value
        limit startTimestamp endTimestamp)
    liftE (matchesBodyStandard platform title resp)

/-- `Client.GetPlayerMatchesSummary` (client.py line 486). -/
def GetPlayerMatchesSummary (http : Http) (platform : PlatformArg)
    (username : String) (title : TitleArg) (mode : ModeArg)
    (kwargs : MatchesKwargs) : Res JSON := do
  liftE (VerifyPlatform platform)
  liftE (VerifyTitle title)
  liftE (VerifyMode mode)
  let limit := kwargs.limit.getD 10
  let startTimestamp := kwargs.startTimestamp.getD 0
  let endTimestamp := kwargs.endTimestamp.getD 0
  let resp ← Res.call
    (.getPlayerMatchesDetailed platform.value username title.value mode.value
      limit startTimestamp endTimestamp)
    (http.GetPlayerMatchesDetailed platform.value username title.value
      mode.value limit startTimestamp endTimestamp)
  liftE (do
    let d ← resp.idx "data"
    d.idx "summary")

/-- `Client.GetMatchDetails` (client.py line 537). -/
def GetMatchDetails (http : Http) (title : TitleArg) (platform : PlatformArg)
    (matchId : Int) : Res JSON := do
  liftE (VerifyPlatform platform)
  liftE (VerifyTitle title)
  let resp ← Res.call (.getMatch title.value platform.value matchId)
    (http.GetMatch title.value platform.value matchId)
  liftE (resp.idx "data")

/-- Post-response body of `GetMatchTeams` (client.py lines 585 to 611). -/
def matchTeamsBody (resp : JSON) : Exc (List (List Player)) := do
  let d ← resp.idx "data"
  let ts ← d.idx "teams"
  let teams ← pyList ts
  mapE (fun team => do
    let members ← pyList team
    mapE (fun player => do
      let pv ← player.idx "provider"
      let uv ← player.idx "username"
      let acc ← player.idx "unoId"
      .ok (Player.mk (.obj
        [("platform", pv), ("username", uv), ("accountId", acc)]))) members) teams

/-- `Client.GetMatchTeams` (client.py line 561). -/
def GetMatchTeams (http : Http) (title : TitleArg) (platform : PlatformArg)
    (matchId : Int) : Res (List (List Player)) := do
  liftE (VerifyPlatform platform)
  liftE (VerifyTitle title)
  let resp ← Res.call (.getMatch title.value platform.value matchId)
    (http.GetMatch title.value platform.value matchId)
  liftE (matchTeamsBody resp)

/-- Post-response body shared by the three leaderboard operations
(client.py lines 657 to 663, 710 to 716 and 762 to 768): extract `data` and
inject the requested time frame, which the upstream response omits. -/
def leaderboardBody (timeFrame : TimeFrameArg) (resp : JSON) :
    Exc Leaderboard := do
  let data ← resp.idx "data"
  let data ← data.setItem "timeFrame" (.str timeFrame.value)
  .ok (Leaderboard.mk data)

/-- `Client.GetLeaderboard` (client.py line 613). -/
def GetLeaderboard (http : Http) (title : TitleArg) (platform : PlatformArg)
    (kwargs : LeaderboardKwargs) : Res Leaderboard := do
  let gameType := kwargs.gameType.getD (.valid .Core)
  let gameMode := kwargs.gameMode.getD "career"
  let timeFrame := kwargs.timeFrame.getD (.valid .AllTime)
  let page := kwargs.page.getD 1
  liftE (VerifyTitle title)
  liftE (VerifyPlatform platform)
  liftE (VerifyGameType gameType)
  liftE (VerifyTimeFrame timeFrame)
  let resp ← Res.call
    (.getLeaderboard title.value platform.value gameType.value gameMode
      timeFrame.value page)
    (http.GetLeaderboard title.value platform.value gameType.value gameMode
      timeFrame.value page)
  liftE (leaderboardBody timeFrame resp)

/-- `Client.GetPlayerLeaderboard` (client.py line 665). -/
def GetPlayerLeaderboard (http : Http) (title : TitleArg)
    (platform : PlatformArg) (username : String)
    (kwargs : PlayerLeaderboardKwargs) : Res Leaderboard := do
  let gameType := kwargs.gameType.getD (.valid .Core)
  let gameMode := kwargs.gameMode.getD "career"
  let timeFrame := kwargs.timeFrame.getD (.valid .AllTime)
  liftE (VerifyTitle title)
  liftE (VerifyPlatform platform)
  liftE (VerifyGameType gameType)
  liftE (VerifyTimeFrame timeFrame)
  let resp ← Res.call
    (.getPlayerLeaderboard title.value platform.value username gameType.value
      gameMode timeFrame.value)
    (http.GetPlayerLeaderboard title.value platform.value username
      gameType.value gameMode timeFrame.value)
  liftE (leaderboardBody timeFrame resp)

/-- Final extraction loop of `GetLeaderboardPlayers` (client.py lines 770 to
779): one Player per leaderboard entry. -/
def leaderboardPlayers (platform : PlatformArg) (lb : Leaderboard) :
    Exc (List Player) :=
  mapE (fun entry => do
    let uv ← entry.idx "username"
    .ok (Player.mk (.obj
      [("platform", .str platform.value), ("username", uv)]))) lb.entries

/-- `Client.GetLeaderboardPlayers` (client.py line 718). -/
def GetLeaderboardPlayers (http : Http) (title : TitleArg)
    (platform : PlatformArg) (kwargs : LeaderboardKwargs) :
    Res (List Player) := do
  let gameType := kwargs.gameType.getD (.valid .Core)
  let gameMode := kwargs.gameMode.getD "career"
  let timeFrame := kwargs.timeFrame.getD (.valid .AllTime)
  let page := kwargs.page.getD 1
  liftE (VerifyTitle title)
  liftE (VerifyPlatform platform)
  liftE (VerifyGameType gameType)
  liftE (VerifyTimeFrame timeFrame)
  let resp ← Res.call
    (.getLeaderboard title.value platform.value gameType.value gameMode
      timeFrame.value page)
    (http.GetLeaderboard title.value platform.value gameType.value gameMode
      timeFrame.value page)
  liftE (do
    let lb ← leaderboardBody timeFrame resp
    leaderboardPlayers platform lb)

/-- `Client.GetAvailableMaps` (client.py line 781).  The source calls the
transport directly, without any Verify call on title, platform or mode. -/
def GetAvailableMaps (http : Http) (title : TitleArg) (platform : PlatformArg)
    (mode : ModeArg) : Res JSON := do
  let resp ← Res.call
    (.getAvailableMaps title.value platform.value mode.value)
    (http.GetAvailableMaps title.value platform.value mode.value)
  liftE (resp.idx "data")

/-- `Client.GetLootSeason` (client.py line 809).  The source validates the
optional platform and language but never `title`. -/
def GetLootSeason (http : Http) (title : TitleArg) (season : Int)
    (kwargs : LootSeasonKwargs) : Res JSON := do
  let platform := kwargs.platform.getD (.valid .PlayStation)
  let language := kwargs.language.getD (.valid .English)
  liftE (VerifyPlatform platform)
  liftE (VerifyLanguage language)
  let resp ← Res.call
    (.getLootSeason title.value season platform.value language.value)
    (http.GetLootSeason title.value season platform.value language.value)
  liftE (resp.idx "data")

/-- `Client.GetSquad` (client.py line 842). -/
def GetSquad (http : Http) (name : String) : Res Squad := do
  let resp ← Res.call (.getSquad name) (http.GetSquad name)
  liftE (do
    let d ← resp.idx "data"
    .ok (Squad.mk d))

/-- `Client.GetPlayerSquad` (client.py line 859). -/
def GetPlayerSquad (http : Http) (platform : PlatformArg) (username : String) :
    Res Squad := do
  liftE (VerifyPlatform platform)
  let resp ← Res.call (.getPlayerSquad platform.value username)
    (http.GetPlayerSquad platform.value username)
  liftE (do
    let d ← resp.idx "data"
    .ok (Squad.mk d))

/-- `Client.GetMySquad` (client.py line 882). -/
def GetMySquad (http : Http) : Res Squad := do
  let resp ← Res.call .getMySquad http.GetMySquad
  liftE (do
    let d ← resp.idx "data"
    .ok (Squad.mk d))

/-- `Client.JoinSquad` (client.py line 894). -/
def JoinSquad (http : Http) (name : String) : Res Unit := do
  let _ ← Res.call (.joinSquad name) (http.JoinSquad name)
  Res.pure ()

/-- `Client.LeaveSquad` (client.py line 906): issue the leave request, then
re-fetch and return the newly assigned squad. -/
def LeaveSquad (http : Http) : Res Squad := do
  let _ ← Res.call .leaveSquad http.LeaveSquad
  GetMySquad http

end Client

/-! ## Mock transports for concrete runs -/

/-- A transport stub answering `JSON.null` everywhere; the concrete mocks
below override individual endpoints. -/
def httpEmpty : Http where
  CloseSession := .null
  GetWebLocalize := fun _ => .null
  GetAppLocalize := fun _ => .null
  GetNewsFeed := fun _ => .null
  GetFriendFeed := .null
  GetMyIdentities := .null
  GetMyAccounts := .null
  GetMyFriends := .null
  SearchPlayer := fun _ _ => .null
  GetPlayerProfile := fun _ _ _ _ => .null
  GetPlayerMatches := fun _ _ _ _ _ _ _ => .null
  GetPlayerMatchesDetailed := fun _ _ _ _ _ _ _ => .null
  GetMatch := fun _ _ _ => .null
  GetLeaderboard := fun _ _ _ _ _ _ => .null
  GetPlayerLeaderboard := fun _ _ _ _ _ _ => .null
  GetAvailableMaps := fun _ _ _ => .null
  GetLootSeason := fun _ _ _ _ => .null
  GetSquad := fun _ => .null
  GetPlayerSquad := fun _ _ => .null
  GetMySquad := .null
  JoinSquad := fun _ => .null
  LeaveSquad := .null

/-- Mock transport for the localization merge: one overlapping key `y`. -/
def localizeHttp : Http :=
  { httpEmpty with
    GetWebLocalize := fun _ => .obj [("x", .str "1"), ("y", .str "2")]
    GetAppLocalize := fun _ => .obj [("y", .str "3"), ("z", .str "4")] }

/-- Mock transport whose authenticated squad is named Foo. -/
def squadHttp : Http :=
  { httpEmpty with
    GetMySquad := .obj [("data", .obj [("name", .str "Foo")])] }


/-- Mock transport for player search: five entries in order. -/
def searchHttp : Http :=
  { httpEmpty with
    SearchPlayer := fun _ _ => .obj [("data", .arr
      [.obj [("platform", .str "psn"), ("username", .str "u1")],
       .obj [("platform", .str "psn"), ("username", .str "u2")],
       .obj [("platform", .str "psn"), ("username", .str "u3")],
       .obj [("platform", .str "psn"), ("username", .str "u4")],
       .obj [("platform", .str "psn"), ("username", .str "u5")]])] }

/-- Mock transport for the search-reshaping claim: a string accountId, a
nested avatar object, a plain avatar string and a missing avatar. -/
def reshapeHttp : Http :=
  { httpEmpty with
    SearchPlayer := fun _ _ => .obj [("data", .arr
      [.obj [("platform", .str "psn"), ("username", .str "u1"),
         ("accountId", .str "123"),
         ("avatar", .obj [("avatarUrlLargeSsl", .str "http://x")])],
       .obj [("platform", .str "psn"), ("username", .str "u2"),
         ("accountId", .num 7), ("avatar", .str "http://plain")],
       .obj [("platform", .str "psn"), ("username", .str "u3")]])] }

/-- Mock transport for match history: the detailed endpoint answers with key
`matchID` holding "7", the standard endpoint with key `matchId` holding
"9". -/
def matchesHttp : Http :=
  { httpEmpty with
    GetPlayerMatchesDetailed := fun _ _ _ _ _ _ _ => .obj [("data", .obj
      [("matches", .arr [.obj [("matchID", .str "7")]])])]
    GetPlayerMatches := fun _ _ _ _ _ _ _ => .obj [("data", .arr
      [.obj [("matchId", .str "9")]])] }

/-- Mock transport for friend aggregation: one `uno` friend and one
`firstParty` platform entry carrying one nested identity. -/
def friendsHttp : Http :=
  { httpEmpty with
    GetMyFriends := .obj [("data", .obj
      [("uno", .arr [.obj
         [("platform", .str "uno"), ("username", .str "UnoFriend"),
          ("status", .obj [("online", .bool true)])]]),
       ("firstParty", .obj [("psn", .arr [.obj
         [("platform", .str "psn"), ("username", .str "PsnFriend"),
          ("identities", .obj [("xbl", .obj
            [("platform", .str "xbl"), ("username", .str "XblAlt"),
             ("accountId", .num 42)])]),
          ("status", .obj [("online", .bool false)])]])])])] }

/-- Mock transport for leaderboards: the response contains no `timeFrame`
key. -/
def leaderboardHttp : Http :=
  { httpEmpty with
    GetLeaderboard := fun _ _ _ _ _ _ => .obj [("data", .obj
      [("entries", .arr [.obj [("username", .str "Top1")]])])] }

/-! ## Reasoning infrastructure -/

@[simp] theorem bindR_eq {α β : Type} (x : Res α) (f : α → Res β) :
    x >>= f = Res.bind x f := rfl

@[simp] theorem pureR_eq {α : Type} (a : α) :
    (Pure.pure a : Res α) = Res.pure a := rfl

@[simp] theorem bindX_eq {α β : Type} (x : Exc α) (f : α → Exc β) :
    x >>= f = Except.bind x f := rfl

@[simp] theorem pureX_eq {α : Type} (a : α) :
    (Pure.pure a : Exc α) = Except.ok a := rfl

@[simp] theorem ok_bind {α β : Type} (a : α) (f : α → Exc β) :
    Except.bind (Except.ok a : Exc α) f = f a := rfl

@[simp] theorem error_bind {α β : Type} (e : Err) (f : α → Exc β) :
    Except.bind (Except.error e : Exc α) f = Except.error e := rfl

@[simp] theorem result_pure {α : Type} (a : α) :
    (Res.pure a).result = .ok a := rfl

@[simp] theorem trace_pure {α : Type} (a : α) :
    (Res.pure a).trace = [] := rfl

@[simp] theorem result_fail {α : Type} (e : Err) :
    (Res.fail e : Res α).result = .error e := rfl

@[simp] theorem trace_fail {α : Type} (e : Err) :
    (Res.fail e : Res α).trace = [] := rfl

@[simp] theorem result_liftE {α : Type} (r : Exc α) : (liftE r).result = r := rfl

@[simp] theorem trace_liftE {α : Type} (r : Exc α) : (liftE r).trace = [] := rfl

@[simp] theorem result_call (e : Event) (v : JSON) :
    (Res.call e v).result = .ok v := rfl

@[simp] theorem trace_call (e : Event) (v : JSON) :
    (Res.call e v).trace = [e] := rfl

@[simp] theorem liftE_ok {α : Type} (a : α) :
    liftE (Except.ok a : Exc α) = Res.pure a := rfl

@[simp] theorem liftE_error {α : Type} (e : Err) :
    liftE (Except.error e : Exc α) = Res.fail e := rfl

@[simp] theorem bind_pure {α β : Type} (a : α) (f : α → Res β) :
    Res.bind (Res.pure a) f = f a := rfl

@[simp] theorem bind_fail {α β : Type} (e : Err) (f : α → Res β) :
    Res.bind (Res.fail e) f = Res.fail e := rfl

@[simp] theorem result_bind_call {β : Type} (e : Event) (v : JSON)
    (f : JSON → Res β) : (Res.bind (Res.call e v) f).result = (f v).result := rfl

@[simp] theorem trace_bind_call {β : Type} (e : Event) (v : JSON)
    (f : JSON → Res β) :
    (Res.bind (Res.call e v) f).trace = e :: (f v).trace := rfl

@[simp] theorem platformArg_value_valid (p : Platform) :
    (PlatformArg.valid p).value = p.value := rfl

@[simp] theorem titleArg_value_valid (t : Title) :
    (TitleArg.valid t).value = t.value := rfl

@[simp] theorem modeArg_value_valid (m : Mode) :
    (ModeArg.valid m).value = m.value := rfl

@[simp] theorem languageArg_value_valid (l : Language) :
    (LanguageArg.valid l).value = l.value := rfl

@[simp] theorem timeFrameArg_value_valid (t : TimeFrame) :
    (TimeFrameArg.valid t).value = t.value := rfl

@[simp] theorem gameTypeArg_value_valid (g : GameType) :
    (GameTypeArg.valid g).value = g.value := rfl

/-- Binding a lifted transport-free computation adds no trace. -/
@[simp] theorem trace_bind_liftE {α β : Type} (x : Res α) (f : α → Exc β) :
    (Res.bind x (fun a => liftE (f a))).trace = x.trace := by
  rcases x with ⟨r, t⟩
  cases r <;> simp [Res.bind, liftE]

/-- Binding a lifted transport-free computation composes results in `Exc`. -/
@[simp] theorem result_bind_liftE {α β : Type} (x : Res α) (f : α → Exc β) :
    (Res.bind x (fun a => liftE (f a))).result = Except.bind x.result f := by
  rcases x with ⟨r, t⟩
  cases r <;> rfl

/-- Sequencing a lifted computation before the rest of an operation. -/
theorem bind_liftE {α β : Type} (r : Exc α) (f : α → Res β) :
    Res.bind (liftE r) f =
      match r with
      | .ok a => f a
      | .error e => Res.fail e := by
  cases r <;> rfl

/-- Associativity of traced sequencing. -/
theorem bind_assoc_res {α β γ : Type} (x : Res α) (f : α → Res β)
    (g : β → Res γ) :
    Res.bind (Res.bind x f) g = Res.bind x (fun a => Res.bind (f a) g) := by
  rcases x with ⟨r, t⟩
  cases r with
  | error e => rfl
  | ok a =>
    show Res.bind ⟨(f a).result, t ++ (f a).trace⟩ g = _
    rcases hf : f a with ⟨rf, tf⟩
    cases rf with
    | error e => simp [Res.bind, hf]
    | ok b =>
      rcases hg : g b with ⟨rg, tg⟩
      simp [Res.bind, hf, hg]

/-- Two consecutive lifted computations fuse into one. -/
theorem liftE_bind_liftE {α β : Type} (r : Exc α) (f : α → Exc β) :
    Res.bind (liftE r) (fun a => liftE (f a)) = liftE (Except.bind r f) := by
  cases r <;> rfl

/-! ### mapE lemmas -/

/-- A successful effectful map produces as many outputs as inputs. -/
theorem mapE_ok_length {α β : Type} {f : α → Exc β} :
    ∀ {xs : List α} {ys : List β}, mapE f xs = .ok ys → ys.length = xs.length := by
  intro xs
  induction xs with
  | nil =>
    intro ys h
    cases h
    rfl
  | cons x xs ih =>
    intro ys h
    simp only [mapE] at h
    cases hx : f x with
    | error e => rw [hx] at h; simp at h
    | ok y =>
      rw [hx] at h
      simp only [bindX_eq, ok_bind] at h
      cases hxs : mapE f xs with
      | error e => rw [hxs] at h; simp at h
      | ok ys0 =>
        rw [hxs] at h
        simp only [bindX_eq, ok_bind] at h
        cases h
        simp [ih hxs]

/-- Every output of a successful effectful map is a successful image of some
input. -/
theorem mapE_ok_mem {α β : Type} {f : α → Exc β} :
    ∀ {xs : List α} {ys : List β}, mapE f xs = .ok ys →
      ∀ y ∈ ys, ∃ x ∈ xs, f x = .ok y := by
  intro xs
  induction xs with
  | nil =>
    intro ys h
    cases h
    intro y hy
    cases hy
  | cons x xs ih =>
    intro ys h
    simp only [mapE] at h
    cases hx : f x with
    | error e => rw [hx] at h; simp at h
    | ok y0 =>
      rw [hx] at h
      simp only [bindX_eq, ok_bind] at h
      cases hxs : mapE f xs with
      | error e => rw [hxs] at h; simp at h
      | ok ys0 =>
        rw [hxs] at h
        simp only [bindX_eq, ok_bind] at h
        cases h
        intro y hy
        rcases List.mem_cons.mp hy with h1 | h2
        · exact ⟨x, List.mem_cons_self x xs, h1 ▸ hx⟩
        · rcases ih hxs y h2 with ⟨x0, hx0, hfx0⟩
          exact ⟨x0, List.mem_cons_of_mem x hx0, hfx0⟩

/-- Truncating the input of a successful effectful map truncates its
output. -/
theorem mapE_take {α β : Type} {f : α → Exc β} :
    ∀ {xs : List α} {ys : List β}, mapE f xs = .ok ys →
      ∀ n : Nat, mapE f (xs.take n) = .ok (ys.take n) := by
  intro xs
  induction xs with
  | nil =>
    intro ys h n
    cases h
    simp [mapE]
  | cons x xs ih =>
    intro ys h n
    simp only [mapE] at h
    cases hx : f x with
    | error e => rw [hx] at h; simp at h
    | ok y =>
      rw [hx] at h
      simp only [bindX_eq, ok_bind] at h
      cases hxs : mapE f xs with
      | error e => rw [hxs] at h; simp at h
      | ok ys0 =>
        rw [hxs] at h
        simp only [bindX_eq, ok_bind] at h
        cases h
        cases n with
        | zero => simp [mapE]
        | succ n =>
          simp only [List.take_succ_cons, mapE, hx, bindX_eq, ok_bind,
            ih hxs n]

/-! ### Association-list lemmas -/

/-- Lookup distributes over append, preferring the left list. -/
theorem lookupField_append (xs ys : List (String × JSON)) (k : String) :
    lookupField (xs ++ ys) k =
      match lookupField xs k with
      | some v => some v
      | none => lookupField ys k := by
  induction xs with
  | nil => rfl
  | cons p rest ih =>
    by_cases hp : p.1 = k
    · simp [lookupField, hp]
    · simp [lookupField, hp, ih]

/-- A key absent from every pair looks up to nothing. -/
theorem lookupField_eq_none_of_not_any (fs : List (String × JSON)) (k : String)
    (h : fs.any (fun p => p.1 = k) = false) : lookupField fs k = none := by
  induction fs with
  | nil => rfl
  | cons p rest ih =>
    simp only [List.any_cons, Bool.or_eq_false_iff, decide_eq_false_iff_not] at h
    simp [lookupField, h.1, ih h.2]

/-- After a Python dict assignment the assigned key holds the new value. -/
theorem lookupField_updateField (fs : List (String × JSON)) (k : String)
    (v : JSON) : lookupField (updateField fs k v) k = some v := by
  unfold updateField
  by_cases h : fs.any (fun p => p.1 = k) = true
  · simp only [h, if_true]
    induction fs with
    | nil => simp at h
    | cons p rest ih =>
      by_cases hp : p.1 = k
      · simp [lookupField, hp]
      · simp only [List.any_cons, decide_eq_true_eq, Bool.or_eq_true] at h
        rcases h with h1 | h2
        · exact absurd h1 hp
        · simp [lookupField, hp, ih h2]
  · simp only [Bool.not_eq_true] at h
    simp only [h, Bool.false_eq_true, if_false]
    rw [lookupField_append]
    rw [lookupField_eq_none_of_not_any fs k h]
    simp [lookupField]

/-- Lookup in the overridden copy of `w` inside `dictMerge`. -/
theorem lookupField_override (w a : List (String × JSON)) (k : String) :
    lookupField
        (w.map (fun p => ((lookupField a p.1).elim p (fun v => (p.1, v))))) k =
      (lookupField w k).map (fun v => (lookupField a k).getD v) := by
  induction w with
  | nil => rfl
  | cons q rest ih =>
    simp only [List.map_cons]
    cases ha : lookupField a q.1 with
    | none =>
      simp only [ha, Option.elim_none]
      by_cases hq : q.1 = k
      · subst hq
        simp [lookupField, ha]
      · rw [lookupField, if_neg hq, ih, lookupField, if_neg hq]
    | some v =>
      simp only [ha, Option.elim_some]
      by_cases hq : q.1 = k
      · subst hq
        simp [lookupField, ha]
      · rw [lookupField, if_neg hq, ih, lookupField, if_neg hq]

/-- Lookup in the `a`-only tail of `dictMerge`. -/
theorem lookupField_filterNew (w a : List (String × JSON)) (k : String) :
    lookupField (a.filter (fun p => (lookupField w p.1).isNone)) k =
      match lookupField w k with
      | none => lookupField a k
      | some _ => none := by
  induction a with
  | nil => cases lookupField w k <;> rfl
  | cons q rest ih =>
    rw [List.filter_cons]
    by_cases hq : q.1 = k
    · subst hq
      cases hw : lookupField w q.1 with
      | none =>
        simp only [hw, Option.isNone_none, if_true]
        simp [lookupField]
      | some v =>
        simp only [hw, Option.isNone_some, Bool.false_eq_true, if_false]
        rw [ih, hw]
    · cases hw0 : lookupField w q.1 with
      | none =>
        simp only [hw0, Option.isNone_none, if_true]
        rw [lookupField, if_neg hq, ih, lookupField, if_neg hq]
      | some v =>
        simp only [hw0, Option.isNone_some, Bool.false_eq_true, if_false]
        rw [ih, lookupField, if_neg hq]

/-- Characterisation of Python dict merge: a key bound in `a` takes the
value from `a`; otherwise the value, if any, comes from `w`. -/
theorem lookupField_dictMerge (w a : List (String × JSON)) (k : String) :
    lookupField (dictMerge w a) k =
      match lookupField a k with
      | some v => some v
      | none => lookupField w k := by
  unfold dictMerge
  rw [lookupField_append, lookupField_override, lookupField_filterNew]
  cases hw : lookupField w k <;> cases ha : lookupField a k <;> simp

/-- Relating the pure lookup used in theorem statements to the embedded
Python subscript. -/
theorem idx_of_getq {j : JSON} {k : String} {v : JSON}
    (h : j.get? k = some v) : JSON.idx j k = .ok v := by
  cases j <;> simp [JSON.get?] at h
  simp [JSON.idx, h]

/-! ## Claims -/

/-- C9: every enumeration member's `.value` is the documented lowercase wire
token of the upstream API; in particular `Platform.PlayStation.value = "psn"`,
`Platform.Activision.value = "uno"` and `Title.ModernWarfare.value = "mw"`,
and no declared token contains an uppercase character. -/
theorem claim9_wire_values :
    (Platform.Activision.value = "uno" ∧ Platform.PlayStation.value = "psn" ∧
      Platform.Xbox.value = "xbl" ∧ Platform.Steam.value = "steam" ∧
      Platform.BattleNet.value = "battle") ∧
    (Title.ModernWarfare.value = "mw" ∧ Title.BlackOps4.value = "bo4" ∧
      Title.WWII.value = "wwii" ∧ Title.InfiniteWarfare.value = "iw" ∧
      Title.BlackOps3.value = "bo3") ∧
    (Mode.Multiplayer.value = "mp" ∧ Mode.Zombies.value = "zm" ∧
      Mode.Blackout.value = "wz") ∧
    (Language.English.value = "en" ∧ Language.French.value = "fr" ∧
      Language.German.value = "de" ∧ Language.Italian.value = "it" ∧
      Language.Spanish.value = "es") ∧
    (TimeFrame.AllTime.value = "alltime" ∧ TimeFrame.Monthly.value = "monthly" ∧
      TimeFrame.Weekly.value = "weekly") ∧
    (GameType.Core.value = "core" ∧ GameType.Hardcore.value = "hc" ∧
      GameType.WorldLeague.value = "arena") ∧
    (∀ p : Platform, p.value.data.all (fun c => !c.isUpper) = true) ∧
    (∀ t : Title, t.value.data.all (fun c => !c.isUpper) = true) ∧
    (∀ m : Mode, m.value.data.all (fun c => !c.isUpper) = true) ∧
    (∀ l : Language, l.value.data.all (fun c => !c.isUpper) = true) ∧
    (∀ tf : TimeFrame, tf.value.data.all (fun c => !c.isUpper) = true) ∧
    (∀ g : GameType, g.value.data.all (fun c => !c.isUpper) = true) := by
  refine ⟨⟨rfl, rfl, rfl, rfl, rfl⟩, ⟨rfl, rfl, rfl, rfl, rfl⟩,
    ⟨rfl, rfl, rfl⟩, ⟨rfl, rfl, rfl, rfl, rfl⟩, ⟨rfl, rfl, rfl⟩,
    ⟨rfl, rfl, rfl⟩, ?_, ?_, ?_, ?_, ?_, ?_⟩ <;>
    (intro x; cases x <;> decide)

/-- C10: GetLocalize returns the key-wise union of the web-localization and
app-localization responses; every key bound in the app response takes the
app value, every other key takes its web value, and a key is absent from the
merge exactly when it is absent from both responses. -/
theorem claim10_localize_merge (http : Http) (language : Language)
    (w a : List (String × JSON))
    (hw : http.GetWebLocalize language.value = .obj w)
    (ha : http.GetAppLocalize language.value = .obj a) :
    (Client.GetLocalize http (.valid language)).result
        = .ok (.obj (dictMerge w a)) ∧
    (∀ k v, lookupField a k = some v →
      lookupField (dictMerge w a) k = some v) ∧
    (∀ k, lookupField a k = none →
      lookupField (dictMerge w a) k = lookupField w k) ∧
    (∀ k, lookupField (dictMerge w a) k = none ↔
      lookupField w k = none ∧ lookupField a k = none) := by
  refine ⟨?_, ?_, ?_, ?_⟩
  · simp only [Client.GetLocalize, bindR_eq, pureR_eq, VerifyLanguage,
      liftE_ok, bind_pure, result_bind_call, result_bind_liftE, result_liftE,
      result_call, ok_bind]
    show (liftE (pyMerge (http.GetWebLocalize (LanguageArg.valid language).value)
      (http.GetAppLocalize (LanguageArg.valid language).value))).result = _
    simp only [LanguageArg.value, hw, ha, pyMerge, result_liftE]
  · intro k v h
    rw [lookupField_dictMerge, h]
  · intro k h
    rw [lookupField_dictMerge, h]
  · intro k
    rw [lookupField_dictMerge]
    cases hx : lookupField a k <;> cases hy : lookupField w k <;> simp

/-- Witness for C10 at a concrete transport: the overlapping key takes the
app value and the union keeps both exclusive keys. -/
theorem claim10_localize_merge_witness :
    (Client.GetLocalize localizeHttp (.valid .English)).result
      = .ok (.obj [("x", .str "1"), ("y", .str "3"), ("z", .str "4")]) :=
  (claim10_localize_merge localizeHttp .English
    [("x", .str "1"), ("y", .str "2")] [("y", .str "3"), ("z", .str "4")]
    rfl rfl).1

/-- C5: LeaveSquad always performs the leave-squad round trip followed by a
get-my-squad round trip, in that order, and returns the Squad built from the
payload of the second fetch. -/
theorem claim5_leaveSquad (http : Http) :
    (Client.LeaveSquad http).trace = [.leaveSquad, .getMySquad] ∧
    (∀ d, http.GetMySquad.get? "data" = some d →
      (Client.LeaveSquad http).result = .ok (Squad.mk d)) := by
  constructor
  · simp [Client.LeaveSquad, Client.GetMySquad]
  · intro d hd
    simp only [Client.LeaveSquad, Client.GetMySquad, bindR_eq,
      result_bind_call, result_bind_liftE, result_liftE, result_call,
      ok_bind, bindX_eq]
    rw [idx_of_getq hd]
    rfl

/-- Witness for C5: with a mock transport whose squad is named Foo, the
operation issues both round trips and returns the Squad for Foo. -/
theorem claim5_leaveSquad_witness :
    (Client.LeaveSquad squadHttp).trace = [Event.leaveSquad, Event.getMySquad] ∧
    (Client.LeaveSquad squadHttp).result
      = .ok (Squad.mk (.obj [("name", .str "Foo")])) :=
  ⟨(claim5_leaveSquad squadHttp).1,
    (claim5_leaveSquad squadHttp).2 (.obj [("name", .str "Foo")]) rfl⟩

/-- Any successful run of the shared leaderboard body yields a payload whose
`timeFrame` entry is the injected wire value. -/
theorem leaderboardBody_timeFrame (tfArg : TimeFrameArg) (resp : JSON)
    (lb : Leaderboard) (h : Client.leaderboardBody tfArg resp = .ok lb) :
    lb.timeFrame = some (.str tfArg.value) := by
  unfold Client.leaderboardBody at h
  cases hidx : resp.idx "data" with
  | error e => rw [hidx] at h; simp at h
  | ok data =>
    rw [hidx] at h
    simp only [bindX_eq, ok_bind] at h
    cases data with
    | obj fs =>
      simp only [JSON.setItem, bindX_eq, ok_bind] at h
      have hlb : lb
          = Leaderboard.mk (.obj (updateField fs "timeFrame" (.str tfArg.value))) := by
        cases h
        rfl
      rw [hlb]
      show JSON.get? (.obj (updateField fs "timeFrame" (.str tfArg.value))) "timeFrame" = _
      simp [JSON.get?, lookupField_updateField]
    | null => simp [JSON.setItem] at h
    | bool b => simp [JSON.setItem] at h
    | num n => simp [JSON.setItem] at h
    | str s => simp [JSON.setItem] at h
    | arr xs => simp [JSON.setItem] at h

/-- C3: both leaderboard retrieval variants inject the caller-requested
timeFrame wire value into the response payload before building the
Leaderboard, defaulting to AllTime when unspecified: every successful
GetLeaderboard yields a Leaderboard whose `timeFrame` is the requested
value even though the upstream response does not echo it, and
GetLeaderboardPlayers factors as GetLeaderboard followed by the pure
entry-to-Player extraction, so it constructs the same injected
Leaderboard. -/
theorem claim3_timeframe_injection :
    (∀ (http : Http) (title : Title) (platform : Platform)
      (gt : Option GameType) (gm : Option String) (tf : Option TimeFrame)
      (pg : Option Int) (lb : Leaderboard),
      (Client.GetLeaderboard http (.valid title) (.valid platform)
        ⟨gt.map .valid, gm, tf.map .valid, pg⟩).result = .ok lb →
      lb.timeFrame = some (.str (tf.getD TimeFrame.AllTime).value)) ∧
    (∀ (http : Http) (title : TitleArg) (platform : PlatformArg)
      (kwargs : LeaderboardKwargs),
      Client.GetLeaderboardPlayers http title platform kwargs =
        Res.bind (Client.GetLeaderboard http title platform kwargs)
          (fun lb => liftE (Client.leaderboardPlayers platform lb))) := by
  constructor
  · intro http title platform gt gm tf pg lb h
    cases gt <;> cases tf <;>
      (simp only [Client.GetLeaderboard, bindR_eq, Option.map_some,
        Option.map_none, Option.getD_some, Option.getD_none, VerifyTitle,
        VerifyPlatform, VerifyGameType, VerifyTimeFrame, liftE_ok, bind_pure,
        result_bind_call, result_bind_liftE, result_call, ok_bind,
        result_liftE] at h;
       exact leaderboardBody_timeFrame _ _ _ h)
  · intro http title platform kwargs
    cases title <;> cases platform <;>
      cases hgt : kwargs.gameType.getD (.valid .Core) <;>
      cases htf : kwargs.timeFrame.getD (.valid .AllTime) <;>
      simp [Client.GetLeaderboardPlayers, Client.GetLeaderboard, hgt, htf,
        VerifyTitle, VerifyPlatform, VerifyGameType, VerifyTimeFrame,
        bind_assoc_res, liftE_bind_liftE]

/-- Witness for C3: with a mock response containing no `timeFrame` key and
no timeFrame keyword supplied, the constructed Leaderboard carries the
default wire value "alltime". -/
theorem claim3_timeframe_injection_witness :
    (Client.GetLeaderboard leaderboardHttp (.valid .ModernWarfare)
        (.valid .PlayStation) ⟨none, none, none, none⟩).result
      = .ok (Leaderboard.mk (.obj
          [("entries", .arr [.obj [("username", .str "Top1")]]),
           ("timeFrame", .str "alltime")])) ∧
    (Leaderboard.mk (.obj
        [("entries", .arr [.obj [("username", .str "Top1")]]),
         ("timeFrame", .str "alltime")])).timeFrame = some (.str "alltime") :=
  ⟨rfl, claim3_timeframe_injection.1 leaderboardHttp .ModernWarfare
    .PlayStation none none none none
    (Leaderboard.mk (.obj
      [("entries", .arr [.obj [("username", .str "Top1")]]),
       ("timeFrame", .str "alltime")])) rfl⟩

/-- The result of SearchPlayers for a valid platform is the search body
applied to the transport response. -/
theorem searchPlayers_result (http : Http) (p : Platform) (u : String)
    (kw : SearchKwargs) :
    (Client.SearchPlayers http (.valid p) u kw).result
      = Client.searchBody (http.SearchPlayer p.value u) kw := by
  simp [Client.SearchPlayers, VerifyPlatform, PlatformArg.value]

/-- With limit 0 the search body reshapes every entry of the data list. -/
theorem searchBody_zero (resp : JSON) (entries : List JSON)
    (hd : resp.get? "data" = some (.arr entries)) :
    Client.searchBody resp ⟨some 0⟩ = mapE Client.searchReshape entries := by
  unfold Client.searchBody
  rw [idx_of_getq hd]
  simp [pyList]

/-- With a positive limit the search body reshapes only the first `limit`
entries of the data list. -/
theorem searchBody_pos (resp : JSON) (entries : List JSON) (l : Int)
    (hd : resp.get? "data" = some (.arr entries)) (hl : 0 < l) :
    Client.searchBody resp ⟨some l⟩
      = mapE Client.searchReshape (entries.take l.toNat) := by
  unfold Client.searchBody
  rw [idx_of_getq hd]
  simp [pySlice, pyList, hl]

/-- C6: for a list-shaped search response, SearchPlayers with a positive
limit returns exactly the first `limit` reshaped results in response order
(the truncation of the unlimited run), an unset limit behaves exactly like
limit 0, and with limit 0 the result has one Player per response entry. -/
theorem claim6_search_limit :
    (∀ (http : Http) (platform : Platform) (username : String)
      (entries : List JSON) (l : Int) (res : List Player),
      (http.SearchPlayer platform.value username).get? "data"
          = some (.arr entries) →
      0 < l →
      (Client.SearchPlayers http (.valid platform) username ⟨some 0⟩).result
          = .ok res →
      (Client.SearchPlayers http (.valid platform) username ⟨some l⟩).result
          = .ok (res.take l.toNat)) ∧
    (∀ (http : Http) (platform : PlatformArg) (username : String),
      Client.SearchPlayers http platform username ⟨none⟩
        = Client.SearchPlayers http platform username ⟨some 0⟩) ∧
    (∀ (http : Http) (platform : Platform) (username : String)
      (entries : List JSON) (res : List Player),
      (http.SearchPlayer platform.value username).get? "data"
          = some (.arr entries) →
      (Client.SearchPlayers http (.valid platform) username ⟨some 0⟩).result
          = .ok res →
      res.length = entries.length) := by
  refine ⟨?_, ?_, ?_⟩
  · intro http platform username entries l res hd hl h0
    rw [searchPlayers_result] at h0 ⊢
    rw [searchBody_zero _ _ hd] at h0
    rw [searchBody_pos _ _ _ hd hl]
    exact mapE_take h0 l.toNat
  · intro http platform username
    rfl
  · intro http platform username entries res hd h0
    rw [searchPlayers_result, searchBody_zero _ _ hd] at h0
    exact (mapE_ok_length h0).trans rfl

/-- Witness for C6: on a mock response of five players, limit 2 returns
exactly the first two in order, and limit 0 returns all five. -/
theorem claim6_search_limit_witness :
    (Client.SearchPlayers searchHttp (.valid .PlayStation) "x" ⟨some 0⟩).result
      = .ok
        [Player.mk (.obj [("platform", .str "psn"), ("username", .str "u1"),
           ("accountId", .null), ("avatarUrl", .null)]),
         Player.mk (.obj [("platform", .str "psn"), ("username", .str "u2"),
           ("accountId", .null), ("avatarUrl", .null)]),
         Player.mk (.obj [("platform", .str "psn"), ("username", .str "u3"),
           ("accountId", .null), ("avatarUrl", .null)]),
         Player.mk (.obj [("platform", .str "psn"), ("username", .str "u4"),
           ("accountId", .null), ("avatarUrl", .null)]),
         Player.mk (.obj [("platform", .str "psn"), ("username", .str "u5"),
           ("accountId", .null), ("avatarUrl", .null)])] ∧
    (Client.SearchPlayers searchHttp (.valid .PlayStation) "x" ⟨some 2⟩).result
      = .ok
        [Player.mk (.obj [("platform", .str "psn"), ("username", .str "u1"),
           ("accountId", .null), ("avatarUrl", .null)]),
         Player.mk (.obj [("platform", .str "psn"), ("username", .str "u2"),
           ("accountId", .null), ("avatarUrl", .null)])] := by
  constructor
  · rfl
  · exact claim6_search_limit.1 searchHttp .PlayStation "x" _ 2 _ rfl
      (by decide) rfl

/-- The trailing platform/username extraction of one search-entry reshape:
on success, the Player payload holds the already-computed accountId and
avatarUrl values. -/
theorem searchReshape_tail {j accountId avatar : JSON} {p : Player}
    (h : Except.bind (JSON.idx j "platform") (fun pv =>
        Except.bind (JSON.idx j "username") (fun uv =>
          (.ok (Player.mk (.obj [("platform", pv), ("username", uv),
            ("accountId", accountId), ("avatarUrl", avatar)])) : Exc Player)))
      = .ok p) :
    p.data.get? "accountId" = some accountId ∧
    p.data.get? "avatarUrl" = some avatar := by
  cases hpv : JSON.idx j "platform" with
  | error e => rw [hpv] at h; simp at h
  | ok pv =>
    rw [hpv] at h
    simp only [ok_bind] at h
    cases huv : JSON.idx j "username" with
    | error e => rw [huv] at h; simp at h
    | ok uv =>
      rw [huv] at h
      simp only [ok_bind] at h
      cases h
      exact ⟨rfl, rfl⟩

/-- C7: SearchPlayers reshapes every raw entry uniformly: a numeric-string
accountId is parsed to the corresponding integer, a nested avatar object is
replaced by its avatarUrlLargeSsl string, a plain avatar string passes
through, a missing avatar yields null; concretely, an entry with accountId
"123" and a nested avatar object yields a Player with integer accountId 123
and avatarUrl "http://x". -/
theorem claim7_search_reshape :
    (∀ (fs : List (String × JSON)) (s : String) (n : Int) (p : Player),
      lookupField fs "accountId" = some (.str s) →
      pyIntOfChars s.data = some n →
      Client.searchReshape (.obj fs) = .ok p →
      p.data.get? "accountId" = some (.num n)) ∧
    (∀ (fs fs2 : List (String × JSON)) (url : JSON) (p : Player),
      lookupField fs "avatar" = some (.obj fs2) →
      lookupField fs2 "avatarUrlLargeSsl" = some url →
      Client.searchReshape (.obj fs) = .ok p →
      p.data.get? "avatarUrl" = some url) ∧
    (∀ (fs : List (String × JSON)) (s : String) (p : Player),
      lookupField fs "avatar" = some (.str s) →
      Client.searchReshape (.obj fs) = .ok p →
      p.data.get? "avatarUrl" = some (.str s)) ∧
    (∀ (fs : List (String × JSON)) (p : Player),
      lookupField fs "avatar" = none →
      Client.searchReshape (.obj fs) = .ok p →
      p.data.get? "avatarUrl" = some .null) ∧
    (Client.SearchPlayers reshapeHttp (.valid .PlayStation) "u" ⟨none⟩).result
      = .ok
        [Player.mk (.obj [("platform", .str "psn"), ("username", .str "u1"),
           ("accountId", .num 123), ("avatarUrl", .str "http://x")]),
         Player.mk (.obj [("platform", .str "psn"), ("username", .str "u2"),
           ("accountId", .num 7), ("avatarUrl", .str "http://plain")]),
         Player.mk (.obj [("platform", .str "psn"), ("username", .str "u3"),
           ("accountId", .null), ("avatarUrl", .null)])] := by
  refine ⟨?_, ?_, ?_, ?_, rfl⟩
  · intro fs s n p hacc hn h
    unfold Client.searchReshape at h
    simp only [JSON.getAttr, hacc, Option.getD_some, bindX_eq, ok_bind,
      Client.reshapeAccount, pyInt, hn] at h
    cases hav : Client.reshapeAvatar ((lookupField fs "avatar").getD .null) with
    | error e => rw [hav] at h; simp at h
    | ok av =>
      rw [hav] at h
      simp only [ok_bind] at h
      exact (searchReshape_tail h).1
  · intro fs fs2 url p hav hurl h
    unfold Client.searchReshape at h
    simp only [JSON.getAttr, bindX_eq, ok_bind] at h
    cases hacc : Client.reshapeAccount ((lookupField fs "accountId").getD .null) with
    | error e => rw [hacc] at h; simp at h
    | ok acc =>
      rw [hacc] at h
      simp only [ok_bind, hav, Option.getD_some, Client.reshapeAvatar] at h
      rw [idx_of_getq (show JSON.get? (.obj fs2) "avatarUrlLargeSsl" = some url
        from hurl)] at h
      simp only [ok_bind] at h
      exact (searchReshape_tail h).2
  · intro fs s p hav h
    unfold Client.searchReshape at h
    simp only [JSON.getAttr, bindX_eq, ok_bind] at h
    cases hacc : Client.reshapeAccount ((lookupField fs "accountId").getD .null) with
    | error e => rw [hacc] at h; simp at h
    | ok acc =>
      rw [hacc] at h
      simp only [ok_bind, hav, Option.getD_some, Client.reshapeAvatar] at h
      exact (searchReshape_tail h).2
  · intro fs p hav h
    unfold Client.searchReshape at h
    simp only [JSON.getAttr, bindX_eq, ok_bind] at h
    cases hacc : Client.reshapeAccount ((lookupField fs "accountId").getD .null) with
    | error e => rw [hacc] at h; simp at h
    | ok acc =>
      rw [hacc] at h
      simp only [ok_bind, hav, Option.getD_none, Client.reshapeAvatar] at h
      exact (searchReshape_tail h).2

/-- Witness for C7 discharging the general hypotheses at the concrete first
mock entry: accountId "123" parses to the integer 123 and the nested avatar
object collapses to its URL. -/
theorem claim7_search_reshape_witness :
    Client.searchReshape (.obj
        [("platform", .str "psn"), ("username", .str "u1"),
         ("accountId", .str "123"),
         ("avatar", .obj [("avatarUrlLargeSsl", .str "http://x")])])
      = .ok (Player.mk (.obj [("platform", .str "psn"),
          ("username", .str "u1"), ("accountId", .num 123),
          ("avatarUrl", .str "http://x")])) ∧
    (Player.mk (.obj [("platform", .str "psn"), ("username", .str "u1"),
        ("accountId", .num 123),
        ("avatarUrl", .str "http://x")])).data.get? "accountId"
      = some (.num 123) ∧
    (Player.mk (.obj [("platform", .str "psn"), ("username", .str "u1"),
        ("accountId", .num 123),
        ("avatarUrl", .str "http://x")])).data.get? "avatarUrl"
      = some (.str "http://x") :=
  ⟨rfl,
    claim7_search_reshape.1
      [("platform", .str "psn"), ("username", .str "u1"),
       ("accountId", .str "123"),
       ("avatar", .obj [("avatarUrlLargeSsl", .str "http://x")])]
      "123" 123 _ rfl rfl rfl,
    claim7_search_reshape.2.1
      [("platform", .str "psn"), ("username", .str "u1"),
       ("accountId", .str "123"),
       ("avatar", .obj [("avatarUrlLargeSsl", .str "http://x")])]
      [("avatarUrlLargeSsl", .str "http://x")] (.str "http://x") _
      rfl rfl rfl⟩

/-- A successfully built Activision-branch Match carries an integer id. -/
theorem buildMatchDetailed_ok_id (parg : PlatformArg) (targ : TitleArg)
    (m : JSON) (mm : Match)
    (h : Client.buildMatchDetailed parg targ m = .ok mm) :
    ∃ n : Int, mm.data.get? "id" = some (.num n) := by
  unfold Client.buildMatchDetailed at h
  cases hv : m.idx "matchID" with
  | error e => rw [hv] at h; simp at h
  | ok v =>
    rw [hv] at h
    simp only [bindX_eq, ok_bind] at h
    cases hn : pyInt v with
    | error e => rw [hn] at h; simp at h
    | ok n =>
      rw [hn] at h
      simp only [ok_bind] at h
      cases h
      exact ⟨n, rfl⟩

/-- A successfully built standard-branch Match carries an integer id. -/
theorem buildMatchStandard_ok_id (parg : PlatformArg) (targ : TitleArg)
    (m : JSON) (mm : Match)
    (h : Client.buildMatchStandard parg targ m = .ok mm) :
    ∃ n : Int, mm.data.get? "id" = some (.num n) := by
  unfold Client.buildMatchStandard at h
  cases hv : m.idx "matchId" with
  | error e => rw [hv] at h; simp at h
  | ok v =>
    rw [hv] at h
    simp only [bindX_eq, ok_bind] at h
    cases hn : pyInt v with
    | error e => rw [hn] at h; simp at h
    | ok n =>
      rw [hn] at h
      simp only [ok_bind] at h
      cases h
      exact ⟨n, rfl⟩

/-- Every Match of a successful Activision-branch body has an integer id. -/
theorem matchesBodyDetailed_ids (parg : PlatformArg) (targ : TitleArg)
    (resp : JSON) (ms : List Match)
    (h : Client.matchesBodyDetailed parg targ resp = .ok ms) :
    ∀ m ∈ ms, ∃ n : Int, m.data.get? "id" = some (.num n) := by
  unfold Client.matchesBodyDetailed at h
  cases hd : resp.idx "data" with
  | error e => rw [hd] at h; simp at h
  | ok d =>
    rw [hd] at h
    simp only [bindX_eq, ok_bind] at h
    cases hm : d.idx "matches" with
    | error e => rw [hm] at h; simp at h
    | ok msj =>
      rw [hm] at h
      simp only [ok_bind] at h
      cases hl : pyList msj with
      | error e => rw [hl] at h; simp at h
      | ok entries =>
        rw [hl] at h
        simp only [ok_bind] at h
        intro m hm2
        rcases mapE_ok_mem h m hm2 with ⟨x, _, hfx⟩
        exact buildMatchDetailed_ok_id parg targ x m hfx

/-- Every Match of a successful standard-branch body has an integer id. -/
theorem matchesBodyStandard_ids (parg : PlatformArg) (targ : TitleArg)
    (resp : JSON) (ms : List Match)
    (h : Client.matchesBodyStandard parg targ resp = .ok ms) :
    ∀ m ∈ ms, ∃ n : Int, m.data.get? "id" = some (.num n) := by
  unfold Client.matchesBodyStandard at h
  cases hd : resp.idx "data" with
  | error e => rw [hd] at h; simp at h
  | ok d =>
    rw [hd] at h
    simp only [bindX_eq, ok_bind] at h
    cases hl : pyList d with
    | error e => rw [hl] at h; simp at h
    | ok entries =>
      rw [hl] at h
      simp only [ok_bind] at h
      intro m hm2
      rcases mapE_ok_mem h m hm2 with ⟨x, _, hfx⟩
      exact buildMatchStandard_ok_id parg targ x m hfx

/-- C2: match-history retrieval with platform Activision issues exactly one
transport call, to the detailed endpoint, and parses each match id from JSON
key `matchID`; any other platform issues exactly one call to the standard
endpoint and parses from key `matchId`; in both branches every Match of a
successful run carries an integer id, as the concrete mock runs (string ids
"7" and "9") show. -/
theorem claim2_match_history :
    (∀ (http : Http) (username : String) (title : Title) (mode : Mode)
      (kwargs : MatchesKwargs),
      (Client.GetPlayerMatches http (.valid .Activision) username
        (.valid title) (.valid mode) kwargs).trace
        = [.getPlayerMatchesDetailed "uno" username title.value mode.value
            (kwargs.limit.getD 10) (kwargs.startTimestamp.getD 0)
            (kwargs.endTimestamp.getD 0)]) ∧
    (∀ (http : Http) (p : Platform) (username : String) (title : Title)
      (mode : Mode) (kwargs : MatchesKwargs), p ≠ .Activision →
      (Client.GetPlayerMatches http (.valid p) username (.valid title)
        (.valid mode) kwargs).trace
        = [.getPlayerMatches p.value username title.value mode.value
            (kwargs.limit.getD 10) (kwargs.startTimestamp.getD 0)
            (kwargs.endTimestamp.getD 0)]) ∧
    (∀ (http : Http) (parg : PlatformArg) (username : String)
      (targ : TitleArg) (marg : ModeArg) (kwargs : MatchesKwargs)
      (ms : List Match),
      (Client.GetPlayerMatches http parg username targ marg kwargs).result
          = .ok ms →
      ∀ m ∈ ms, ∃ n : Int, m.data.get? "id" = some (.num n)) ∧
    (Client.GetPlayerMatches matchesHttp (.valid .Activision) "u"
        (.valid .ModernWarfare) (.valid .Multiplayer) ⟨none, none, none⟩).result
      = .ok [Match.mk (.obj [("id", .num 7), ("platform", .str "uno"),
          ("title", .str "mw")])] ∧
    (Client.GetPlayerMatches matchesHttp (.valid .PlayStation) "u"
        (.valid .ModernWarfare) (.valid .Multiplayer) ⟨none, none, none⟩).result
      = .ok [Match.mk (.obj [("id", .num 9), ("platform", .str "psn"),
          ("title", .str "mw")])] := by
  refine ⟨?_, ?_, ?_, rfl, rfl⟩
  · intro http username title mode kwargs
    simp [Client.GetPlayerMatches, VerifyPlatform, VerifyTitle, VerifyMode,
      PlatformArg.value, TitleArg.value, ModeArg.value, Platform.value]
  · intro http p username title mode kwargs hp
    cases p
    · exact absurd rfl hp
    all_goals
      simp [Client.GetPlayerMatches, VerifyPlatform, VerifyTitle, VerifyMode,
        PlatformArg.value, TitleArg.value, ModeArg.value]
  · intro http parg username targ marg kwargs ms h
    cases parg with
    | invalid t =>
      simp [Client.GetPlayerMatches, VerifyPlatform] at h
    | valid p =>
      cases targ with
      | invalid t =>
        simp [Client.GetPlayerMatches, VerifyPlatform, VerifyTitle] at h
      | valid t =>
        cases marg with
        | invalid t2 =>
          simp [Client.GetPlayerMatches, VerifyPlatform, VerifyTitle,
            VerifyMode] at h
        | valid md =>
          cases p <;>
            simp only [Client.GetPlayerMatches, VerifyPlatform, VerifyTitle,
              VerifyMode, liftE_ok, bind_pure, bindR_eq, result_bind_call,
              result_bind_liftE, result_call, ok_bind, result_liftE] at h
          case Activision => exact matchesBodyDetailed_ids _ _ _ _ h
          all_goals exact matchesBodyStandard_ids _ _ _ _ h

/-- Witness for C2 at concrete inputs: the PlayStation run traces the
standard endpoint, and the Match produced by the Activision mock run has the
integer id parsed from "7". -/
theorem claim2_match_history_witness :
    (Client.GetPlayerMatches matchesHttp (.valid .PlayStation) "u"
        (.valid .ModernWarfare) (.valid .Multiplayer) ⟨none, none, none⟩).trace
      = [Event.getPlayerMatches "psn" "u" "mw" "mp" 10 0 0] ∧
    (∃ n : Int,
      (Match.mk (.obj [("id", .num 7), ("platform", .str "uno"),
        ("title", .str "mw")])).data.get? "id" = some (.num n)) :=
  ⟨claim2_match_history.2.1 matchesHttp .PlayStation "u" .ModernWarfare
      .Multiplayer ⟨none, none, none⟩ (by decide),
    claim2_match_history.2.2.1 matchesHttp (.valid .Activision) "u"
      (.valid .ModernWarfare) (.valid .Multiplayer) ⟨none, none, none⟩
      [Match.mk (.obj [("id", .num 7), ("platform", .str "uno"),
        ("title", .str "mw")])] rfl
      (Match.mk (.obj [("id", .num 7), ("platform", .str "uno"),
        ("title", .str "mw")])) (by simp)⟩

/-- Length of a flattened list of lists. -/
theorem flatten_length_sum {γ : Type} (xss : List (List γ)) :
    xss.flatten.length = (xss.map List.length).sum := by
  induction xss with
  | nil => rfl
  | cons xs rest ih => simp [List.flatten_cons, ih]

/-- The per-platform firstParty loop produces, for each platform whose value
is a JSON array, a list of parsed friends of the same length. -/
theorem fpLists_lengths :
    ∀ (fps : List (String × JSON)) (lss : List (List JSON))
      (pss : List (List Player)),
      fps.map Prod.snd = lss.map JSON.arr →
      mapE (fun pl => Except.bind (pyList pl.2)
        (fun l => mapE Client.parseFirstPartyFriend l)) fps = .ok pss →
      pss.map List.length = lss.map List.length := by
  intro fps
  induction fps with
  | nil =>
    intro lss pss hshape h
    cases lss with
    | nil =>
      cases h
      rfl
    | cons l lss' => simp at hshape
  | cons pl fps' ih =>
    intro lss pss hshape h
    cases lss with
    | nil => simp at hshape
    | cons l lss' =>
      simp only [List.map_cons, List.cons.injEq] at hshape
      simp only [mapE, bindX_eq] at h
      rw [hshape.1] at h
      rw [show pyList (JSON.arr l) = Except.ok l from rfl] at h
      simp only [ok_bind] at h
      cases hinner : mapE Client.parseFirstPartyFriend l with
      | error e => rw [hinner] at h; simp at h
      | ok ps1 =>
        rw [hinner] at h
        simp only [ok_bind] at h
        cases hrest : mapE (fun pl => Except.bind (pyList pl.2)
            (fun l => mapE Client.parseFirstPartyFriend l)) fps' with
        | error e => rw [hrest] at h; simp at h
        | ok pss' =>
          rw [hrest] at h
          simp only [ok_bind] at h
          cases h
          simp only [List.map_cons, List.cons.injEq]
          exact ⟨mapE_ok_length hinner, ih lss' pss' hshape.2 hrest⟩

/-- C4: GetMyFriends flattens the flat uno list and the nested firstParty
structure into one ordered list with one Player per friend (uno friends
first), each firstParty parent Player carrying its identities entries as a
nested Player list; the concrete mock with one uno friend and one firstParty
entry holding one nested identity yields exactly the two expected
Players. -/
theorem claim4_friend_aggregation :
    (∀ (http : Http) (d : JSON) (us : List JSON)
      (fps : List (String × JSON)) (lss : List (List JSON))
      (fr : List Player),
      http.GetMyFriends.get? "data" = some d →
      d.get? "uno" = some (.arr us) →
      d.get? "firstParty" = some (.obj fps) →
      fps.map Prod.snd = lss.map JSON.arr →
      (Client.GetMyFriends http).result = .ok fr →
      fr.length = us.length + (lss.map List.length).sum) ∧
    (∀ (friend : JSON) (fs2 : List (String × JSON)) (ids : List Player)
      (p : Player),
      friend.get? "identities" = some (.obj fs2) →
      mapE Client.parseIdentity fs2 = .ok ids →
      Client.parseFirstPartyFriend friend = .ok p →
      p.data.get? "identities" = some (.arr (ids.map Player.data))) ∧
    (Client.GetMyFriends friendsHttp).result
      = .ok
        [Player.mk (.obj [("platform", .str "uno"),
           ("username", .str "UnoFriend"), ("accountId", .null),
           ("online", .bool true)]),
         Player.mk (.obj [("platform", .str "psn"),
           ("username", .str "PsnFriend"), ("accountId", .null),
           ("avatarUrl", .null), ("online", .bool false),
           ("identities", .arr [.obj [("platform", .str "xbl"),
             ("username", .str "XblAlt"), ("accountId", .num 42),
             ("avatarUrl", .null)]])])] := by
  refine ⟨?_, ?_, rfl⟩
  · intro http d us fps lss fr hd hu hf hshape h
    simp only [Client.GetMyFriends, bindR_eq, result_bind_call,
      result_bind_liftE, result_call, ok_bind, result_liftE] at h
    unfold Client.myFriendsBody at h
    rw [idx_of_getq hd] at h
    simp only [bindX_eq, ok_bind] at h
    rw [idx_of_getq hu] at h
    simp only [ok_bind] at h
    rw [show pyList (JSON.arr us) = Except.ok us from rfl] at h
    simp only [ok_bind] at h
    cases huno : mapE Client.parseBasicFriend us with
    | error e => rw [huno] at h; simp at h
    | ok unoFriends =>
      rw [huno] at h
      simp only [ok_bind] at h
      rw [idx_of_getq hf] at h
      simp only [ok_bind, iterKeyed] at h
      cases hfp : mapE (fun pl => Except.bind (pyList pl.2)
          (fun l => mapE Client.parseFirstPartyFriend l)) fps with
      | error e => rw [hfp] at h; simp at h
      | ok pss =>
        rw [hfp] at h
        simp only [ok_bind] at h
        cases h
        rw [List.length_append, mapE_ok_length huno, flatten_length_sum,
          fpLists_lengths fps lss pss hshape hfp]
  · intro friend fs2 ids p hid hmap h
    cases friend <;> simp [JSON.get?] at hid
    rename_i ffs
    unfold Client.parseFirstPartyFriend at h
    simp only [JSON.getAttrD, bindX_eq, ok_bind] at h
    rw [show lookupField ffs "identities" = some (.obj fs2) from hid] at h
    simp only [Option.getD_some, iterKeyed, ok_bind] at h
    rw [hmap] at h
    simp only [ok_bind] at h
    cases hpv : JSON.idx (.obj ffs) "platform" with
    | error e => rw [hpv] at h; simp at h
    | ok pv =>
      rw [hpv] at h
      simp only [ok_bind] at h
      cases huv : JSON.idx (.obj ffs) "username" with
      | error e => rw [huv] at h; simp at h
      | ok uv =>
        rw [huv] at h
        simp only [ok_bind, JSON.getAttr] at h
        cases hst : JSON.idx (.obj ffs) "status" with
        | error e => rw [hst] at h; simp at h
        | ok st =>
          rw [hst] at h
          simp only [ok_bind] at h
          cases honl : st.idx "online" with
          | error e => rw [honl] at h; simp at h
          | ok onl =>
            rw [honl] at h
            simp only [ok_bind] at h
            cases h
            rfl

/-- Witness for C4 at the concrete mock: the general shape facts applied to
the two-entry response. -/
theorem claim4_friend_aggregation_witness :
    (Client.GetMyFriends friendsHttp).result.map List.length
      = .ok 2 ∧
    (Player.mk (.obj [("platform", .str "psn"),
        ("username", .str "PsnFriend"), ("accountId", .null),
        ("avatarUrl", .null), ("online", .bool false),
        ("identities", .arr [.obj [("platform", .str "xbl"),
          ("username", .str "XblAlt"), ("accountId", .num 42),
          ("avatarUrl", .null)]])])).data.get? "identities"
      = some (.arr [.obj [("platform", .str "xbl"),
          ("username", .str "XblAlt"), ("accountId", .num 42),
          ("avatarUrl", .null)]]) := by
  constructor
  · have h2 := claim4_friend_aggregation.1 friendsHttp
      (.obj [("uno", .arr [.obj
        [("platform", .str "uno"), ("username", .str "UnoFriend"),
         ("status", .obj [("online", .bool true)])]]),
       ("firstParty", .obj [("psn", .arr [.obj
        [("platform", .str "psn"), ("username", .str "PsnFriend"),
         ("identities", .obj [("xbl", .obj
           [("platform", .str "xbl"), ("username", .str "XblAlt"),
            ("accountId", .num 42)])]),
         ("status", .obj [("online", .bool false)])]])])])
      [.obj [("platform", .str "uno"), ("username", .str "UnoFriend"),
        ("status", .obj [("online", .bool true)])]]
      [("psn", .arr [.obj
        [("platform", .str "psn"), ("username", .str "PsnFriend"),
         ("identities", .obj [("xbl", .obj
           [("platform", .str "xbl"), ("username", .str "XblAlt"),
            ("accountId", .num 42)])]),
         ("status", .obj [("online", .bool false)])]])]
      [[.obj [("platform", .str "psn"), ("username", .str "PsnFriend"),
         ("identities", .obj [("xbl", .obj
           [("platform", .str "xbl"), ("username", .str "XblAlt"),
            ("accountId", .num 42)])]),
         ("status", .obj [("online", .bool false)])]]]
      _ rfl rfl rfl rfl rfl
    rw [show (Client.GetMyFriends friendsHttp).result.map List.length
      = .ok ((Client.GetMyFriends friendsHttp).result.toOption.getD []).length
      from rfl]
    rw [show ((Client.GetMyFriends friendsHttp).result.toOption.getD []).length
      = 2 from h2]
  · exact claim4_friend_aggregation.2.1
      (.obj [("platform", .str "psn"), ("username", .str "PsnFriend"),
        ("identities", .obj [("xbl", .obj
          [("platform", .str "xbl"), ("username", .str "XblAlt"),
           ("accountId", .num 42)])]),
        ("status", .obj [("online", .bool false)])])
      [("xbl", .obj [("platform", .str "xbl"), ("username", .str "XblAlt"),
        ("accountId", .num 42)])]
      [Player.mk (.obj [("platform", .str "xbl"),
        ("username", .str "XblAlt"), ("accountId", .num 42),
        ("avatarUrl", .null)])]
      _ rfl rfl rfl

/-- Counterexample to C1 as stated: GetNewsFeed, GetAvailableMaps and the
title parameter of GetLootSeason use the enumerated parameter's wire token
in a transport call without invoking any validator, so a non-member value
reaches the network instead of raising InvalidArgument. -/
theorem claim1_counterexample :
    (Client.GetNewsFeed httpEmpty (.invalid "zz")).trace
        = [Event.getNewsFeed "zz"] ∧
    (Client.GetNewsFeed httpEmpty (.invalid "zz")).result = .ok .null ∧
    (Client.GetAvailableMaps httpEmpty (.invalid "tt") (.invalid "pp")
        (.invalid "mm")).trace = [Event.getAvailableMaps "tt" "pp" "mm"] ∧
    (Client.GetLootSeason httpEmpty (.invalid "tt") 1 ⟨none, none⟩).trace
        = [Event.getLootSeason "tt" 1 "psn" "en"] :=
  ⟨rfl, rfl, rfl, rfl⟩

/-- C1 (amended): every Client operation that accepts an enumerated
parameter invokes the matching validator on it before using its wire token
in a transport call — a non-member value makes the operation fail with
InvalidArgument synchronously, before any transport call — except
GetNewsFeed (language unvalidated), GetAvailableMaps (title, platform and
mode unvalidated) and GetLootSeason's title parameter, which reach the
transport without validation. -/
theorem claim1_validators_amended :
    (∀ (http : Http) (s : String),
      Client.GetLocalize http (.invalid s) = Res.fail .invalidArgument) ∧
    (∀ (http : Http) (s u : String),
      Client.GetPlayer http (.invalid s) u = Res.fail .invalidArgument) ∧
    (∀ (http : Http) (s u : String) (kw : SearchKwargs),
      Client.SearchPlayers http (.invalid s) u kw
        = Res.fail .invalidArgument) ∧
    (∀ (http : Http) (s u : String) (t : TitleArg) (m : ModeArg),
      Client.GetPlayerProfile http (.invalid s) u t m
        = Res.fail .invalidArgument) ∧
    (∀ (http : Http) (p : Platform) (s u : String) (m : ModeArg),
      Client.GetPlayerProfile http (.valid p) u (.invalid s) m
        = Res.fail .invalidArgument) ∧
    (∀ (http : Http) (p : Platform) (t : Title) (s u : String),
      Client.GetPlayerProfile http (.valid p) u (.valid t) (.invalid s)
        = Res.fail .invalidArgument) ∧
    (∀ (http : Http) (s : String) (parg : PlatformArg) (mid : Int),
      Client.GetMatch http (.invalid s) parg mid
        = Res.fail .invalidArgument) ∧
    (∀ (http : Http) (t : Title) (s : String) (mid : Int),
      Client.GetMatch http (.valid t) (.invalid s) mid
        = Res.fail .invalidArgument) ∧
    (∀ (http : Http) (s u : String) (t : TitleArg) (m : ModeArg)
      (kw : MatchesKwargs),
      Client.GetPlayerMatches http (.invalid s) u t m kw
        = Res.fail .invalidArgument) ∧
    (∀ (http : Http) (p : Platform) (s u : String) (m : ModeArg)
      (kw : MatchesKwargs),
      Client.GetPlayerMatches http (.valid p) u (.invalid s) m kw
        = Res.fail .invalidArgument) ∧
    (∀ (http : Http) (p : Platform) (t : Title) (s u : String)
      (kw : MatchesKwargs),
      Client.GetPlayerMatches http (.valid p) u (.valid t) (.invalid s) kw
        = Res.fail .invalidArgument) ∧
    (∀ (http : Http) (s u : String) (t : TitleArg) (m : ModeArg)
      (kw : MatchesKwargs),
      Client.GetPlayerMatchesSummary http (.invalid s) u t m kw
        = Res.fail .invalidArgument) ∧
    (∀ (http : Http) (p : Platform) (s u : String) (m : ModeArg)
      (kw : MatchesKwargs),
      Client.GetPlayerMatchesSummary http (.valid p) u (.invalid s) m kw
        = Res.fail .invalidArgument) ∧
    (∀ (http : Http) (p : Platform) (t : Title) (s u : String)
      (kw : MatchesKwargs),
      Client.GetPlayerMatchesSummary http (.valid p) u (.valid t)
        (.invalid s) kw = Res.fail .invalidArgument) ∧
    (∀ (http : Http) (s : String) (p : Platform) (mid : Int),
      Client.GetMatchDetails http (.invalid s) (.valid p) mid
        = Res.fail .invalidArgument) ∧
    (∀ (http : Http) (targ : TitleArg) (s : String) (mid : Int),
      Client.GetMatchDetails http targ (.invalid s) mid
        = Res.fail .invalidArgument) ∧
    (∀ (http : Http) (s : String) (p : Platform) (mid : Int),
      Client.GetMatchTeams http (.invalid s) (.valid p) mid
        = Res.fail .invalidArgument) ∧
    (∀ (http : Http) (targ : TitleArg) (s : String) (mid : Int),
      Client.GetMatchTeams http targ (.invalid s) mid
        = Res.fail .invalidArgument) ∧
    (∀ (http : Http) (s : String) (parg : PlatformArg)
      (kw : LeaderboardKwargs),
      Client.GetLeaderboard http (.invalid s) parg kw
        = Res.fail .invalidArgument) ∧
    (∀ (http : Http) (t : Title) (s : String) (kw : LeaderboardKwargs),
      Client.GetLeaderboard http (.valid t) (.invalid s) kw
        = Res.fail .invalidArgument) ∧
    (∀ (http : Http) (t : Title) (p : Platform) (s : String)
      (gm : Option String) (tf : Option TimeFrameArg) (pg : Option Int),
      Client.GetLeaderboard http (.valid t) (.valid p)
        ⟨some (.invalid s), gm, tf, pg⟩ = Res.fail .invalidArgument) ∧
    (∀ (http : Http) (t : Title) (p : Platform) (g : GameType) (s : String)
      (gm : Option String) (pg : Option Int),
      Client.GetLeaderboard http (.valid t) (.valid p)
        ⟨some (.valid g), gm, some (.invalid s), pg⟩
        = Res.fail .invalidArgument) ∧
    (∀ (http : Http) (s u : String) (parg : PlatformArg)
      (kw : PlayerLeaderboardKwargs),
      Client.GetPlayerLeaderboard http (.invalid s) parg u kw
        = Res.fail .invalidArgument) ∧
    (∀ (http : Http) (t : Title) (s u : String)
      (kw : PlayerLeaderboardKwargs),
      Client.GetPlayerLeaderboard http (.valid t) (.invalid s) u kw
        = Res.fail .invalidArgument) ∧
    (∀ (http : Http) (t : Title) (p : Platform) (s u : String)
      (gm : Option String) (tf : Option TimeFrameArg),
      Client.GetPlayerLeaderboard http (.valid t) (.valid p) u
        ⟨some (.invalid s), gm, tf⟩ = Res.fail .invalidArgument) ∧
    (∀ (http : Http) (t : Title) (p : Platform) (g : GameType) (s u : String)
      (gm : Option String),
      Client.GetPlayerLeaderboard http (.valid t) (.valid p) u
        ⟨some (.valid g), gm, some (.invalid s)⟩
        = Res.fail .invalidArgument) ∧
    (∀ (http : Http) (s : String) (parg : PlatformArg)
      (kw : LeaderboardKwargs),
      Client.GetLeaderboardPlayers http (.invalid s) parg kw
        = Res.fail .invalidArgument) ∧
    (∀ (http : Http) (t : Title) (s : String) (kw : LeaderboardKwargs),
      Client.GetLeaderboardPlayers http (.valid t) (.invalid s) kw
        = Res.fail .invalidArgument) ∧
    (∀ (http : Http) (t : Title) (p : Platform) (s : String)
      (gm : Option String) (tf : Option TimeFrameArg) (pg : Option Int),
      Client.GetLeaderboardPlayers http (.valid t) (.valid p)
        ⟨some (.invalid s), gm, tf, pg⟩ = Res.fail .invalidArgument) ∧
    (∀ (http : Http) (t : Title) (p : Platform) (g : GameType) (s : String)
      (gm : Option String) (pg : Option Int),
      Client.GetLeaderboardPlayers http (.valid t) (.valid p)
        ⟨some (.valid g), gm, some (.invalid s), pg⟩
        = Res.fail .invalidArgument) ∧
    (∀ (http : Http) (targ : TitleArg) (season : Int) (s : String)
      (lang : Option LanguageArg),
      Client.GetLootSeason http targ season ⟨some (.invalid s), lang⟩
        = Res.fail .invalidArgument) ∧
    (∀ (http : Http) (targ : TitleArg) (season : Int) (p : Platform)
      (s : String),
      Client.GetLootSeason http targ season ⟨some (.valid p), some (.invalid s)⟩
        = Res.fail .invalidArgument) ∧
    (∀ (http : Http) (s u : String),
      Client.GetPlayerSquad http (.invalid s) u
        = Res.fail .invalidArgument) := by
  refine ⟨?_, ?_, ?_, ?_, ?_, ?_, ?_, ?_, ?_, ?_, ?_, ?_, ?_, ?_, ?_, ?_,
    ?_, ?_, ?_, ?_, ?_, ?_, ?_, ?_, ?_, ?_, ?_, ?_, ?_, ?_, ?_, ?_, ?_⟩ <;>
    (intros; rfl)

/-- Counterexample to C8 as stated: GetPlayer and GetMatch complete
successfully with zero transport calls — they construct the entity payload
locally. -/
theorem claim8_counterexample :
    (Client.GetPlayer httpEmpty (.valid .PlayStation) "u").trace = [] ∧
    (Client.GetPlayer httpEmpty (.valid .PlayStation) "u").result
      = .ok (Player.mk (.obj [("platform", .str "psn"),
          ("username", .str "u")])) ∧
    (Client.GetMatch httpEmpty (.valid .ModernWarfare) (.valid .PlayStation)
        5).trace = [] ∧
    (Client.GetMatch httpEmpty (.valid .ModernWarfare) (.valid .PlayStation)
        5).result
      = .ok (Match.mk (.obj [("id", .num 5), ("platform", .str "psn"),
          ("title", .str "mw")])) :=
  ⟨rfl, rfl, rfl, rfl⟩

/-- C8 (amended): for valid arguments, every Client operation issues exactly
one transport call, except the two-source operations GetLocalize and
LeaveSquad which issue exactly two, and except GetPlayer and GetMatch which
issue zero because they construct the entity locally. -/
theorem claim8_transport_counts :
    (∀ http : Http, (Client.Logout http).trace = [.closeSession]) ∧
    (∀ (http : Http) (l : Language),
      (Client.GetLocalize http (.valid l)).trace
        = [.getWebLocalize l.value, .getAppLocalize l.value]) ∧
    (∀ (http : Http) (lang : LanguageArg),
      (Client.GetNewsFeed http lang).trace = [.getNewsFeed lang.value]) ∧
    (∀ http : Http, (Client.GetFriendFeed http).trace = [.getFriendFeed]) ∧
    (∀ http : Http,
      (Client.GetMyIdentities http).trace = [.getMyIdentities]) ∧
    (∀ http : Http, (Client.GetMyAccounts http).trace = [.getMyAccounts]) ∧
    (∀ http : Http, (Client.GetMyFriends http).trace = [.getMyFriends]) ∧
    (∀ http : Http,
      (Client.GetMyFriendRequests http).trace = [.getMyFriends]) ∧
    (∀ (http : Http) (p : Platform) (u : String),
      (Client.GetPlayer http (.valid p) u).trace = []) ∧
    (∀ (http : Http) (p : Platform) (u : String) (kw : SearchKwargs),
      (Client.SearchPlayers http (.valid p) u kw).trace
        = [.searchPlayer p.value u]) ∧
    (∀ (http : Http) (p : Platform) (u : String) (t : Title) (m : Mode),
      (Client.GetPlayerProfile http (.valid p) u (.valid t) (.valid m)).trace
        = [.getPlayerProfile p.value u t.value m.value]) ∧
    (∀ (http : Http) (t : Title) (p : Platform) (mid : Int),
      (Client.GetMatch http (.valid t) (.valid p) mid).trace = []) ∧
    (∀ (http : Http) (p : Platform) (u : String) (t : Title) (m : Mode)
      (kw : MatchesKwargs),
      (Client.GetPlayerMatches http (.valid p) u (.valid t) (.valid m)
        kw).trace.length = 1) ∧
    (∀ (http : Http) (p : Platform) (u : String) (t : Title) (m : Mode)
      (kw : MatchesKwargs),
      (Client.GetPlayerMatchesSummary http (.valid p) u (.valid t) (.valid m)
        kw).trace
        = [.getPlayerMatchesDetailed p.value u t.value m.value
            (kw.limit.getD 10) (kw.startTimestamp.getD 0)
            (kw.endTimestamp.getD 0)]) ∧
    (∀ (http : Http) (t : Title) (p : Platform) (mid : Int),
      (Client.GetMatchDetails http (.valid t) (.valid p) mid).trace
        = [.getMatch t.value p.value mid]) ∧
    (∀ (http : Http) (t : Title) (p : Platform) (mid : Int),
      (Client.GetMatchTeams http (.valid t) (.valid p) mid).trace
        = [.getMatch t.value p.value mid]) ∧
    (∀ (http : Http) (t : Title) (p : Platform) (gt : Option GameType)
      (gm : Option String) (tf : Option TimeFrame) (pg : Option Int),
      (Client.GetLeaderboard http (.valid t) (.valid p)
        ⟨gt.map .valid, gm, tf.map .valid, pg⟩).trace.length = 1) ∧
    (∀ (http : Http) (t : Title) (p : Platform) (u : String)
      (gt : Option GameType) (gm : Option String) (tf : Option TimeFrame),
      (Client.GetPlayerLeaderboard http (.valid t) (.valid p) u
        ⟨gt.map .valid, gm, tf.map .valid⟩).trace.length = 1) ∧
    (∀ (http : Http) (t : Title) (p : Platform) (gt : Option GameType)
      (gm : Option String) (tf : Option TimeFrame) (pg : Option Int),
      (Client.GetLeaderboardPlayers http (.valid t) (.valid p)
        ⟨gt.map .valid, gm, tf.map .valid, pg⟩).trace.length = 1) ∧
    (∀ (http : Http) (targ : TitleArg) (parg : PlatformArg) (marg : ModeArg),
      (Client.GetAvailableMaps http targ parg marg).trace
        = [.getAvailableMaps targ.value parg.value marg.value]) ∧
    (∀ (http : Http) (targ : TitleArg) (season : Int) (p : Option Platform)
      (l : Option Language),
      (Client.GetLootSeason http targ season
        ⟨p.map .valid, l.map .valid⟩).trace.length = 1) ∧
    (∀ (http : Http) (name : String),
      (Client.GetSquad http name).trace = [.getSquad name]) ∧
    (∀ (http : Http) (p : Platform) (u : String),
      (Client.GetPlayerSquad http (.valid p) u).trace
        = [.getPlayerSquad p.value u]) ∧
    (∀ http : Http, (Client.GetMySquad http).trace = [.getMySquad]) ∧
    (∀ (http : Http) (name : String),
      (Client.JoinSquad http name).trace = [.joinSquad name]) ∧
    (∀ http : Http,
      (Client.LeaveSquad http).trace = [.leaveSquad, .getMySquad]) := by
  refine ⟨?_, ?_, ?_, ?_, ?_, ?_, ?_, ?_, ?_, ?_, ?_, ?_, ?_, ?_, ?_, ?_,
    ?_, ?_, ?_, ?_, ?_, ?_, ?_, ?_, ?_, ?_⟩
  · intro http
    simp [Client.Logout]
  · intro http l
    simp [Client.GetLocalize, VerifyLanguage]
  · intro http lang
    simp [Client.GetNewsFeed]
  · intro http
    simp [Client.GetFriendFeed]
  · intro http
    simp [Client.GetMyIdentities]
  · intro http
    simp [Client.GetMyAccounts]
  · intro http
    simp [Client.GetMyFriends]
  · intro http
    simp [Client.GetMyFriendRequests]
  · intro http p u
    rfl
  · intro http p u kw
    simp [Client.SearchPlayers, VerifyPlatform]
  · intro http p u t m
    simp [Client.GetPlayerProfile, VerifyPlatform, VerifyTitle, VerifyMode]
  · intro http t p mid
    rfl
  · intro http p u t m kw
    cases p <;>
      simp [Client.GetPlayerMatches, VerifyPlatform, VerifyTitle, VerifyMode]
  · intro http p u t m kw
    simp [Client.GetPlayerMatchesSummary, VerifyPlatform, VerifyTitle,
      VerifyMode]
  · intro http t p mid
    simp [Client.GetMatchDetails, VerifyPlatform, VerifyTitle]
  · intro http t p mid
    simp [Client.GetMatchTeams, VerifyPlatform, VerifyTitle]
  · intro http t p gt gm tf pg
    cases gt <;> cases tf <;>
      simp [Client.GetLeaderboard, VerifyTitle, VerifyPlatform,
        VerifyGameType, VerifyTimeFrame]
  · intro http t p u gt gm tf
    cases gt <;> cases tf <;>
      simp [Client.GetPlayerLeaderboard, VerifyTitle, VerifyPlatform,
        VerifyGameType, VerifyTimeFrame]
  · intro http t p gt gm tf pg
    cases gt <;> cases tf <;>
      simp [Client.GetLeaderboardPlayers, VerifyTitle, VerifyPlatform,
        VerifyGameType, VerifyTimeFrame]
  · intro http targ parg marg
    simp [Client.GetAvailableMaps]
  · intro http targ season p l
    cases p <;> cases l <;>
      simp [Client.GetLootSeason, VerifyPlatform, VerifyLanguage]
  · intro http name
    simp [Client.GetSquad]
  · intro http p u
    simp [Client.GetPlayerSquad, VerifyPlatform]
  · intro http
    simp [Client.GetMySquad]
  · intro http name
    simp [Client.JoinSquad]
  · intro http
    simp [Client.LeaveSquad, Client.GetMySquad]

end CoD

